import Mathlib

/-!
Verification development for the slp_validate replay-file validator.

The Rust sources are shallowly embedded: byte streams are lists of
naturals (each byte below 256), stateful stream reads become a reader
monad threading the remaining bytes, and the three ways a Rust call can
finish (a value, a recoverable Result error, a process abort such as an
unwrap on None or a buffer underflow in the bytes crate) become the three
constructors of an outcome type.  Machine integers are naturals or
integers with explicit wrap-arounds where the source can overflow.
Floating-point fields are carried as their raw 32-bit big-endian bit
patterns; no claim below depends on float semantics.
-/

namespace SlpValidate

/-- Recoverable error kinds surfaced by the driver (anyhow / io errors in
parse.rs).  The message text is irrelevant to every claim, only the kind
and the fact that the error is recoverable matter. -/
inductive PErr where
  | headerMismatch
  | metadataMismatch
  | payloadsCode
  | payloadsLen
  | gameStartCode
  | ubjsonBad
deriving DecidableEq

/-- Outcome of running a piece of the repository: a value, a recoverable
error (a Rust Result::Err propagated with the question-mark operator), or
a process abort (a Rust panic: unwrap of None, out-of-bounds index or
slice, buffer underflow in bytes::Buf). -/
inductive Res (α : Type) where
  | ok : α → Res α
  | err : PErr → Res α
  | crash : Res α
deriving DecidableEq

/-- A stateful read over a byte stream, mirroring how the source threads
a bytes::Bytes value through get_u8 / get_u16 / advance calls. -/
def ReadM (α : Type) : Type := List Nat → Res (α × List Nat)

def ReadM.pure (a : α) : ReadM α := fun s => .ok (a, s)

def ReadM.bind (m : ReadM α) (f : α → ReadM β) : ReadM β := fun s =>
  match m s with
  | .ok (a, s') => f a s'
  | .err e => .err e
  | .crash => .crash

instance : Monad ReadM where
  pure := ReadM.pure
  bind := ReadM.bind

/-- bytes::Buf::get_u8 — one byte, panics on underflow. -/
def getU8 : ReadM Nat := fun s =>
  match s with
  | [] => .crash
  | b :: rest => .ok (b, rest)

/-- bytes::Buf::copy_to_slice of a fixed width, and the data source for
Bytes::advance — panics when fewer than n bytes remain. -/
def takeBytes (n : Nat) : ReadM (List Nat) := fun s =>
  if n ≤ s.length then .ok (s.take n, s.drop n) else .crash

/-- bytes::Buf::advance — skips n bytes, panics on underflow. -/
def advanceBy (n : Nat) : ReadM Unit := do
  let _ ← takeBytes n
  ReadM.pure ()

/-- bytes::Buf::get_u16 — two bytes, big-endian. -/
def getU16 : ReadM Nat := do
  let a ← getU8
  let b ← getU8
  ReadM.pure (a * 256 + b)

/-- bytes::Buf::get_u32 — four bytes, big-endian. -/
def getU32 : ReadM Nat := do
  let a ← getU16
  let b ← getU16
  ReadM.pure (a * 65536 + b)

/-- bytes::Buf::get_i32 — four bytes big-endian, two's complement. -/
def getI32 : ReadM Int := do
  let n ← getU32
  ReadM.pure (if n < 2 ^ 31 then (n : Int) else (n : Int) - 2 ^ 32)

/-- bytes::Buf::get_i8 — one byte, two's complement. -/
def getI8 : ReadM Int := do
  let b ← getU8
  ReadM.pure (if b < 128 then (b : Int) else (b : Int) - 256)

/-- bytes::Buf::get_f32 — four bytes; the raw big-endian bit pattern is
kept as a natural, since no claim depends on float semantics. -/
def getF32 : ReadM Nat := getU32

/-- Option::unwrap — the value, or a panic. -/
def unwrapOpt : Option α → ReadM α
  | some a => ReadM.pure a
  | none => fun _ => .crash

/-- bool::then(closure) applied to a stream read: the read happens only
when the condition holds, mirroring version.at_least(..).then(|| ..). -/
def readIf (c : Bool) (m : ReadM α) : ReadM (Option α) :=
  if c then do
    let a ← m
    ReadM.pure (some a)
  else
    ReadM.pure none

/-! ### Byte-consumption algebra -/

/-- The read consumes exactly n bytes on every successful run. -/
def Consumes {α : Type} (m : ReadM α) (n : Nat) : Prop :=
  ∀ s a s', m s = .ok (a, s') → s.length = n + s'.length

/-! ### Version (utils.rs) -/

/-- Slippi replay version triple (utils.rs).  The source derives
PartialOrd/Ord, which is lexicographic with major most significant. -/
structure Version where
  major : Nat
  minor : Nat
  build : Nat
deriving DecidableEq, Inhabited

/-- The derived Ord::cmp on Version: compare fields in declaration
order, the first non-equal field decides. -/
def Version.cmp (a b : Version) : Ordering :=
  (compare a.major b.major).then
    ((compare a.minor b.minor).then (compare a.build b.build))

/-- The strict order induced by the derived Ord instance. -/
def Version.ltP (a b : Version) : Prop := Version.cmp a b = .lt

instance (a b : Version) : Decidable (Version.ltP a b) := by
  unfold Version.ltP
  infer_instance

/-- Version::at_least — true when self is greater than or equal to the
given triple, through the derived total order. -/
def Version.atLeast (v : Version) (major minor build : Nat) : Bool :=
  match Version.cmp v ⟨major, minor, build⟩ with
  | .lt => false
  | _ => true

/-! ### Event types and the event-size table (parse.rs) -/

/-- Event-type codes recognized by the driver (parse.rs EventType).
The source has a None = 0x00 variant used as the strum Default, the
fallback for unrecognized bytes. -/
inductive EventType where
  | eventPayloads
  | gameStart
  | preFrame
  | postFrame
  | gameEnd
  | frameStart
  | item
  | frameEnd
  | geckoList
  | messageSplitter
  | none
deriving DecidableEq

/-- strum FromRepr for EventType: the declared byte value of each
variant, no others. -/
def EventType.fromRepr (n : Nat) : Option EventType :=
  if n = 0x35 then some .eventPayloads
  else if n = 0x36 then some .gameStart
  else if n = 0x37 then some .preFrame
  else if n = 0x38 then some .postFrame
  else if n = 0x39 then some .gameEnd
  else if n = 0x3A then some .frameStart
  else if n = 0x3B then some .item
  else if n = 0x3C then some .frameEnd
  else if n = 0x3D then some .geckoList
  else if n = 0x10 then some .messageSplitter
  else if n = 0 then some EventType.none
  else Option.none

/-- The HashMap from EventType to declared payload size, as the function
it represents. -/
def SizeMap : Type := EventType → Option Nat

/-- HashMap::default() — the empty mapping. -/
def SizeMap.empty : SizeMap := fun _ => Option.none

/-- HashMap::insert — a later insert for the same key overwrites the
earlier one. -/
def SizeMap.insert (m : SizeMap) (k : EventType) (v : Nat) : SizeMap :=
  fun k' => if k' = k then some v else m k'

/-- The body of the entry loop in get_event_sizes, iterated once per
step of the range: read a code byte (panicking, through unwrap, when it
is not a recognized variant), a big-endian u16 size, and insert. -/
def readSizeEntries : Nat → SizeMap → ReadM SizeMap
  | 0, m => ReadM.pure m
  | k + 1, m => do
    let code ← getU8
    let event ← unwrapOpt (EventType.fromRepr code)
    let size ← getU16
    readSizeEntries k (m.insert event size)

/-- parse.rs get_event_sizes.  The length check subtracts 1 from a u8:
that subtraction wraps (written here with an explicit mod 256), so a
length byte of 0 becomes 255.  The source iterates
(0..(payloads_size-1)).step_by(3), which runs ceil(n/3) times; under the
divisibility check that passed this equals n / 3. -/
def getEventSizes : ReadM SizeMap := do
  let code ← getU8
  let event ← unwrapOpt (EventType.fromRepr code)
  if event = .eventPayloads then
    let payloadsSize ← getU8
    let n : Nat := (payloadsSize + 255) % 256
    if n % 3 = 0 then
      readSizeEntries (n / 3) SizeMap.empty
    else
      fun _ => .err .payloadsLen
  else
    fun _ => .err .payloadsCode

/-- Res::is-ok projection used to state observable outcomes. -/
def Res.isOk : Res α → Bool
  | .ok _ => true
  | _ => false

/-- Byte encoding of one size-table entry: a code byte followed by a
big-endian u16 payload length. -/
def encodeEntries : List (Nat × Nat) → List Nat
  | [] => []
  | e :: rest => e.1 :: e.2 / 256 :: e.2 % 256 :: encodeEntries rest

/-- The mapping produced by inserting the decoded entries in order. -/
def buildSizeMap (l : List (Nat × Nat)) : SizeMap :=
  l.foldl
    (fun m e => m.insert ((EventType.fromRepr e.1).getD EventType.none) e.2)
    SizeMap.empty

/-! ### Game enumerations and the external crate interface -/

/-- Controller port (ssbm_utils Port): four variants, FromRepr defined
on bytes 0 through 3 only. -/
inductive Port where
  | P1
  | P2
  | P3
  | P4
deriving DecidableEq, Inhabited

/-- strum FromRepr for Port. -/
def Port.fromRepr (n : Nat) : Option Port :=
  if n = 0 then some .P1
  else if n = 1 then some .P2
  else if n = 2 then some .P3
  else if n = 3 then some .P4
  else Option.none

/-- player.rs PlayerType, FromRepr on 0..=3, strum Default = Empty. -/
inductive PlayerType where
  | human
  | cpu
  | demo
  | empty
deriving DecidableEq, Inhabited

/-- strum FromRepr for PlayerType. -/
def PlayerType.fromRepr (n : Nat) : Option PlayerType :=
  if n = 0 then some .human
  else if n = 1 then some .cpu
  else if n = 2 then some .demo
  else if n = 3 then some .empty
  else Option.none

/-- Playable characters.  The source compares only against the variants
named here; every other roster character is carried as its raw code.
The concrete code tables live in the external ssbm_utils crate, which
the spec places out of scope, so lookups through them are parameters of
the embedding (see Foreign below). -/
inductive Character where
  | iceClimbers
  | zelda
  | sheik
  | nana
  | other (code : Nat)
deriving DecidableEq, Inhabited

/-- ssbm_utils State as seen by this repository: the source only ever
distinguishes the Unknown variant (carrying the raw code) from resolved
states. -/
inductive CharState where
  | known (code : Nat)
  | unknown (code : Nat)
deriving DecidableEq, Inhabited

/-- game_start.rs MatchType, FromRepr on the ascii codes of u, r, d,
strum Default = Unknown. -/
inductive MatchType where
  | unranked
  | ranked
  | direct
  | unknown
deriving DecidableEq, Inhabited

/-- strum FromRepr for MatchType. -/
def MatchType.fromRepr (n : Nat) : Option MatchType :=
  if n = 117 then some .unranked
  else if n = 114 then some .ranked
  else if n = 100 then some .direct
  else if n = 0 then some .unknown
  else Option.none

/-- Interfaces of the external collaborators: the ssbm_utils enumeration
tables (character, stage, action-state, attack, item, costume), the
SHIFT_JIS text decoding, and the ubjson metadata module of this
repository that is not under src.  The spec declares these out of
scope, needing only lookup-from-integer behavior, so they are
parameters; the theorems below hold for every choice of them. -/
structure Foreign where
  charFromCSS : Nat → Option Character
  charDefault : Character
  charFromInternal : Nat → Option Character
  nanaInternal : Nat
  getCostume : Character → Nat → Nat
  stageRecognized : Nat → Bool
  stateRecognized : Nat → Character → Bool
  attackRecognized : Nat → Bool
  itemRecognized : Nat → Bool
  decodeShiftJis : List Nat → String
  normalizeHash : String → String
  /-- Modelled from the spec: the ubjson module (not under src) decodes
  the trailing metadata document; the driver consumes the lastFrame
  integer and the startAt string, and decode failures propagate as
  recoverable errors. -/
  ubjsonToMap : List Nat → Res (Option Int × Option String)

/-- ssbm_utils State::from_state_and_char as used by this repository:
resolved against a character, or Unknown carrying the raw code. -/
def stateFromStateAndChar (fr : Foreign) (code : Nat) (c : Character) : CharState :=
  if fr.stateRecognized code c then .known code else .unknown code

/-- player.rs Player.  Float-valued settings are raw 32-bit patterns;
team shade and team id are stored through from_repr(0..=2) with
unwrap_or_default (default 0), a miss warns for active players. -/
structure Player where
  port : Port
  playerType : PlayerType
  character : Character
  startingStocks : Nat
  costume : Nat
  teamShade : Nat
  handicap : Nat
  teamId : Nat
  bitfield : Nat
  cpuLevel : Nat
  damageStart : Nat
  damageSpawn : Nat
  offenseRatio : Nat
  defenseRatio : Nat
  modelScale : Nat
  ucf : Option (Nat × Nat)
  connectCode : Option String
  displayName : Option String
deriving DecidableEq, Inhabited

/-! ### frame.rs decoders -/

/-- frame.rs FrameStart. -/
structure FrameStart where
  frameIdx : Int
  frameCounter : Option Nat
deriving DecidableEq, Inhabited

/-- frame.rs FrameStart::new: frame index, a discarded random seed, and
a version-gated match-wide frame counter. -/
def frameStartNew (v : Version) : ReadM FrameStart := do
  let frameIdx ← getI32
  let _seedDiscard ← getU32
  let frameCounter ← readIf (v.atLeast 3 10 0) getU32
  ReadM.pure { frameIdx := frameIdx, frameCounter := frameCounter }

/-- frame.rs FrameEnd. -/
structure FrameEnd where
  frameIdx : Int
  latestFinalized : Option Int
deriving DecidableEq, Inhabited

/-- frame.rs FrameEnd::new: frame index and a version-gated latest
finalized frame index. -/
def frameEndNew (v : Version) : ReadM FrameEnd := do
  let frameIdx ← getI32
  let latestFinalized ← readIf (v.atLeast 3 7 0) getI32
  ReadM.pure { frameIdx := frameIdx, latestFinalized := latestFinalized }

/-! ### itemframe.rs decoder -/

/-- itemframe.rs ItemFrame; float fields are raw bit patterns. -/
structure ItemFrame where
  frameIndex : Int
  itemId : Nat
  state : Nat
  orientation : Nat
  velocity : Nat × Nat
  position : Nat × Nat
  damageTaken : Nat
  expirationTimer : Nat
  spawnId : Nat
  missileType : Option Nat
  turnipType : Option Nat
  launched : Option Bool
  chargePower : Option Nat
  owner : Option Int
  instanceId : Option Nat
deriving DecidableEq, Inhabited

/-- itemframe.rs ItemFrame::new.  The validate call only warns (on an
unresolved item id), so it has no observable effect here. -/
def itemFrameNew (v : Version) : ReadM ItemFrame := do
  let frameIndex ← getI32
  let itemId ← getU16
  let state ← getU8
  let orientation ← getF32
  let vx ← getF32
  let vy ← getF32
  let px ← getF32
  let py ← getF32
  let damageTaken ← getU16
  let expirationTimer ← getF32
  let spawnId ← getU32
  let missileType ← readIf (v.atLeast 3 2 0) getU8
  let turnipType ← readIf (v.atLeast 3 2 0) getU8
  let launched ← readIf (v.atLeast 3 2 0) (do
    let b ← getU8
    ReadM.pure (b != 0))
  let chargePower ← readIf (v.atLeast 3 2 0) getU8
  let owner ← readIf (v.atLeast 3 6 0) getI8
  let instanceId ← readIf (v.atLeast 3 16 0) getU16
  ReadM.pure {
    frameIndex := frameIndex, itemId := itemId, state := state,
    orientation := orientation, velocity := (vx, vy), position := (px, py),
    damageTaken := damageTaken, expirationTimer := expirationTimer,
    spawnId := spawnId, missileType := missileType, turnipType := turnipType,
    launched := launched, chargePower := chargePower, owner := owner,
    instanceId := instanceId }

/-! ### preframe.rs decoder -/

/-- preframe.rs PreFrame; float fields are raw bit patterns. -/
structure PreFrame where
  frameIndex : Int
  port : Nat
  nana : Bool
  randomSeed : Nat
  actionState : CharState
  position : Nat × Nat
  orientation : Nat
  joystick : Nat × Nat
  cstick : Nat × Nat
  engineTrigger : Nat
  engineButtons : Nat
  controllerButtons : Nat
  controllerL : Nat
  controllerR : Nat
  rawStickX : Option Int
  percent : Option Nat
  rawStickY : Option Int
deriving DecidableEq, Inhabited

/-- The action-state initializer expression of PreFrame::new: resolve
the code against the roster character; when unresolved and the character
is Zelda, read a second u16 from the stream and retry against Sheik,
consuming two extra bytes. -/
def readActionState (fr : Foreign) (stateCode : Nat) (c : Character) :
    ReadM CharState :=
  match stateFromStateAndChar fr stateCode c with
  | .unknown x =>
    if c = Character.zelda then do
      let stateCode2 ← getU16
      ReadM.pure (stateFromStateAndChar fr stateCode2 Character.sheik)
    else
      ReadM.pure (CharState.unknown x)
  | st => ReadM.pure st

/-- preframe.rs PreFrame::new.  The players[port] roster index panics
for a port byte outside 0..=3 (the array has exactly 4 entries).
PreFrame::validate only warns, so it is not modelled. -/
def preFrameNew (fr : Foreign) (v : Version) (players : List Player) :
    ReadM PreFrame := do
  let frameIndex ← getI32
  let port ← getU8
  let followerB ← getU8
  let player ← unwrapOpt (players.get? port)
  let randomSeed ← getU32
  let stateCode ← getU16
  let actionState ← readActionState fr stateCode player.character
  let px ← getF32
  let py ← getF32
  let orientation ← getF32
  let jx ← getF32
  let jy ← getF32
  let cx ← getF32
  let cy ← getF32
  let engineTrigger ← getF32
  let engineButtons ← getU32
  let controllerButtons ← getU16
  let controllerL ← getF32
  let controllerR ← getF32
  let rawStickX ← readIf (v.atLeast 1 2 0) getI8
  let percent ← readIf (v.atLeast 1 4 0) getF32
  let rawStickY ← readIf (v.atLeast 3 15 0) getI8
  ReadM.pure {
    frameIndex := frameIndex, port := port, nana := followerB == 1,
    randomSeed := randomSeed, actionState := actionState,
    position := (px, py), orientation := orientation,
    joystick := (jx, jy), cstick := (cx, cy),
    engineTrigger := engineTrigger, engineButtons := engineButtons,
    controllerButtons := controllerButtons, controllerL := controllerL,
    controllerR := controllerR, rawStickX := rawStickX,
    percent := percent, rawStickY := rawStickY }

/-! ### postframe.rs decoder -/

/-- postframe.rs PostFrame; float fields are raw bit patterns. -/
structure PostFrame where
  frameIndex : Int
  port : Nat
  nana : Bool
  character : Nat
  actionState : Nat
  position : Nat × Nat
  orientation : Nat
  percent : Nat
  shieldHealth : Nat
  lastAttackLanded : Nat
  comboCount : Nat
  lastHitBy : Nat
  stocks : Nat
  stateFrame : Option Nat
  flags : Option Nat
  miscAs : Option Nat
  isGrounded : Option Bool
  lastGroundId : Option Nat
  jumpsRemaining : Option Nat
  lCancel : Option Nat
  hurtboxState : Option Nat
  airVelocity : Option (Nat × Nat)
  knockback : Option (Nat × Nat)
  groundVelocity : Option (Nat × Nat)
  hitlagRemaining : Option Nat
  animationIndex : Option Nat
  instanceHitBy : Option Nat
  instanceId : Option Nat
deriving DecidableEq, Inhabited

/-- postframe.rs PostFrame::validate: every range check only warns; the
one observable effect is the internal-character lookup, whose unwrap
panics on an unrecognized character code. -/
def postFrameValidate (fr : Foreign) (r : PostFrame) : ReadM Unit :=
  unwrapOpt ((fr.charFromInternal r.character).map (fun _ => ()))

/-- postframe.rs PostFrame::new.  The ground-velocity vertical component
reuses the y value read for air velocity (the mutable y_speed local,
initialized to the bit pattern of 0.0); both sit behind the same 3.5.0
gate. -/
def postFrameNew (fr : Foreign) (v : Version) : ReadM PostFrame := do
  let frameIndex ← getI32
  let port ← getU8
  let nanaB ← getU8
  let character ← getU8
  let actionState ← getU16
  let px ← getF32
  let py ← getF32
  let orientation ← getF32
  let percent ← getF32
  let shieldHealth ← getF32
  let lastAttackLanded ← getU8
  let comboCount ← getU8
  let lastHitBy ← getU8
  let stocks ← getU8
  let stateFrame ← readIf (v.atLeast 0 2 0) getF32
  let flags ← readIf (v.atLeast 2 0 0) (do
    let b0 ← getU8
    let b1 ← getU8
    let b2 ← getU8
    let b3 ← getU8
    let b4 ← getU8
    ReadM.pure (b0 + b1 * 256 + b2 * 65536 + b3 * 16777216 + b4 * 4294967296))
  let miscAs ← readIf (v.atLeast 2 0 0) getF32
  let isGrounded ← readIf (v.atLeast 2 0 0) (do
    let b ← getU8
    ReadM.pure (b == 0))
  let lastGroundId ← readIf (v.atLeast 2 0 0) getU16
  let jumpsRemaining ← readIf (v.atLeast 2 0 0) getU8
  let lCancel ← readIf (v.atLeast 2 0 0) getU8
  let hurtboxState ← readIf (v.atLeast 3 1 0) getU8
  let airVelocity ← readIf (v.atLeast 3 5 0) (do
    let x ← getF32
    let y ← getF32
    ReadM.pure (x, y))
  let knockback ← readIf (v.atLeast 3 5 0) (do
    let x ← getF32
    let y ← getF32
    ReadM.pure (x, y))
  let groundVelocity ← readIf (v.atLeast 3 5 0) (do
    let x ← getF32
    ReadM.pure (x, ((airVelocity.map Prod.snd).getD 0)))
  let hitlagRemaining ← readIf (v.atLeast 3 8 0) getF32
  let animationIndex ← readIf (v.atLeast 3 11 0) getU32
  let instanceHitBy ← readIf (v.atLeast 3 16 0) getU16
  let instanceId ← readIf (v.atLeast 3 16 0) getU16
  let result : PostFrame := {
    frameIndex := frameIndex, port := port, nana := nanaB != 0,
    character := character, actionState := actionState,
    position := (px, py), orientation := orientation, percent := percent,
    shieldHealth := shieldHealth, lastAttackLanded := lastAttackLanded,
    comboCount := comboCount, lastHitBy := lastHitBy, stocks := stocks,
    stateFrame := stateFrame, flags := flags, miscAs := miscAs,
    isGrounded := isGrounded, lastGroundId := lastGroundId,
    jumpsRemaining := jumpsRemaining, lCancel := lCancel,
    hurtboxState := hurtboxState, airVelocity := airVelocity,
    knockback := knockback, groundVelocity := groundVelocity,
    hitlagRemaining := hitlagRemaining, animationIndex := animationIndex,
    instanceHitBy := instanceHitBy, instanceId := instanceId }
  let _ ← postFrameValidate fr result
  ReadM.pure result

/-! ### Version-implied byte counts (longest satisfied gate prefix) -/

/-- Bytes of a frame-start window implied by its gate chain. -/
def frameStartExpected (v : Version) : Nat :=
  8 + (if v.atLeast 3 10 0 then 4 else 0)

/-- Bytes of a frame-end window implied by its gate chain. -/
def frameEndExpected (v : Version) : Nat :=
  4 + (if v.atLeast 3 7 0 then 4 else 0)

/-- Bytes of an item-record window implied by the longest prefix of
satisfied gates. -/
def itemFrameExpected (v : Version) : Nat :=
  37 + (if v.atLeast 3 2 0 then
    4 + (if v.atLeast 3 6 0 then
      1 + (if v.atLeast 3 16 0 then 2 else 0)
    else 0)
  else 0)

/-- Bytes of a pre-record window implied by the longest prefix of
satisfied gates (without the Zelda re-read). -/
def preFrameExpected (v : Version) : Nat :=
  58 + (if v.atLeast 1 2 0 then
    1 + (if v.atLeast 1 4 0 then
      4 + (if v.atLeast 3 15 0 then 1 else 0)
    else 0)
  else 0)

/-- Bytes of a post-record window implied by the longest prefix of
satisfied gates. -/
def postFrameExpected (v : Version) : Nat :=
  33 + (if v.atLeast 0 2 0 then
    4 + (if v.atLeast 2 0 0 then
      14 + (if v.atLeast 3 1 0 then
        1 + (if v.atLeast 3 5 0 then
          20 + (if v.atLeast 3 8 0 then
            4 + (if v.atLeast 3 11 0 then
              4 + (if v.atLeast 3 16 0 then 4 else 0)
            else 0)
          else 0)
        else 0)
      else 0)
    else 0)
  else 0)

/-- Every successful run satisfies P on the produced value. -/
def RunOk {α : Type} (m : ReadM α) (P : α → Prop) : Prop :=
  ∀ s a s', m s = .ok (a, s') → P a

/-- The read consumes one of two byte counts on every successful run. -/
def ConsumesD {α : Type} (m : ReadM α) (n1 n2 : Nat) : Prop :=
  ∀ s a s', m s = .ok (a, s') →
    s.length = n1 + s'.length ∨ s.length = n2 + s'.length

/-! ### game_start.rs decoder -/

/-- game_start.rs GameStart (decode-relevant fields; the timer is
seconds, float settings are raw bit patterns, the match id is kept as
its zero-truncated UTF-8 byte content). -/
structure GameStart where
  randomSeed : Nat
  teams : Bool
  stage : Nat
  timer : Nat
  damageRatio : Nat
  pal : Option Bool
  frozenStadium : Option Bool
  netplay : Option Bool
  matchId : List Nat
  matchType : MatchType
  gameNumber : Option Nat
  tiebreakNumber : Option Nat
deriving DecidableEq, Inhabited

/-- One controller-fix read of the UCF block: a u32 truncated to its
low byte (the Rust as-u8 cast) looked up through
ControllerFix::from_repr (codes 0..=2), whose unwrap panics. -/
def readControllerFix : ReadM Nat := do
  let raw ← getU32
  unwrapOpt (if raw % 256 ≤ 2 then some (raw % 256) else Option.none)

/-- One iteration of the UCF loop: dashback then shield-drop fix. -/
def readUcf : ReadM (Nat × Nat) := do
  let dashback ← readControllerFix
  let shieldDrop ← readControllerFix
  ReadM.pure (dashback, shieldDrop)

/-- Zero-truncation of a fixed-width text field: keep everything before
the first zero byte, or the first dflt bytes when none occurs. -/
def truncAtZero (l : List Nat) (dflt : Nat) : List Nat :=
  l.take ((l.findIdx? (fun x => x == 0)).getD dflt)

/-- One display-name read: 31 raw bytes, zero-truncated with default
width 30, decoded through the external SHIFT_JIS decoder. -/
def readDisplayName (fr : Foreign) : ReadM String := do
  let bytes ← takeBytes 31
  ReadM.pure (fr.decodeShiftJis (truncAtZero bytes 30))

/-- One connect-code read: 10 raw bytes, zero-truncated with default
width 10, SHIFT_JIS decoded, with the full-width hash glyph normalized
to the ascii hash by the external replace. -/
def readConnectCode (fr : Foreign) : ReadM String := do
  let bytes ← takeBytes 10
  ReadM.pure (fr.normalizeHash (fr.decodeShiftJis (truncAtZero bytes 10)))

/-- A UTF-8 continuation byte. -/
def utf8Cont (b : Nat) : Bool := 128 ≤ b && b ≤ 191

/-- Validity of a byte list as UTF-8, the success condition of the
String::from_utf8 unwrap on the match-id bytes (RFC 3629 ranges,
surrogates and overlong forms excluded). -/
def isValidUtf8 : List Nat → Bool
  | [] => true
  | b :: rest =>
    if b ≤ 127 then isValidUtf8 rest
    else
      match rest with
      | [] => false
      | c1 :: r1 =>
        if 194 ≤ b && b ≤ 223 then utf8Cont c1 && isValidUtf8 r1
        else
          match r1 with
          | [] => false
          | c2 :: r2 =>
            if b = 224 then
              (160 ≤ c1 && c1 ≤ 191) && utf8Cont c2 && isValidUtf8 r2
            else if (225 ≤ b && b ≤ 236) || b = 238 || b = 239 then
              utf8Cont c1 && utf8Cont c2 && isValidUtf8 r2
            else if b = 237 then
              (128 ≤ c1 && c1 ≤ 159) && utf8Cont c2 && isValidUtf8 r2
            else
              match r2 with
              | [] => false
              | c3 :: r3 =>
                if b = 240 then
                  (144 ≤ c1 && c1 ≤ 191) && utf8Cont c2 && utf8Cont c3 &&
                    isValidUtf8 r3
                else if 241 ≤ b && b ≤ 243 then
                  utf8Cont c1 && utf8Cont c2 && utf8Cont c3 && isValidUtf8 r3
                else if b = 244 then
                  (128 ≤ c1 && c1 ≤ 143) && utf8Cont c2 && utf8Cont c3 &&
                    isValidUtf8 r3
                else false

/-- The i-th iteration of the per-participant block loop of
GameStart::parse (36 bytes).  The CSS character lookup falls back to the
strum default on an unrecognized code; an invalid player type, team
shade or team id only warns and falls back to the default. -/
def readPlayerBlock (fr : Foreign) (i : Nat) : ReadM Player := do
  let characterCode ← getU8
  let character : Character := (fr.charFromCSS characterCode).getD fr.charDefault
  let playerTypeCode ← getU8
  let playerType : PlayerType := (PlayerType.fromRepr playerTypeCode).getD .empty
  let startingStocks ← getU8
  let costumeCode ← getU8
  let teamShadeCode ← getU8
  let handicap ← getU8
  let teamIdCode ← getU8
  let bitfield ← getU8
  let cpuLevel ← getU8
  let damageStart ← getU16
  let damageSpawn ← getU16
  let offenseRatio ← getF32
  let defenseRatio ← getF32
  let modelScale ← getF32
  advanceBy 11
  let port ← unwrapOpt (Port.fromRepr i)
  ReadM.pure {
    port := port, playerType := playerType, character := character,
    startingStocks := startingStocks,
    costume := fr.getCostume character costumeCode,
    teamShade := if teamShadeCode ≤ 2 then teamShadeCode else 0,
    handicap := handicap,
    teamId := if teamIdCode ≤ 2 then teamIdCode else 0,
    bitfield := bitfield, cpuLevel := cpuLevel,
    damageStart := damageStart, damageSpawn := damageSpawn,
    offenseRatio := offenseRatio, defenseRatio := defenseRatio,
    modelScale := modelScale,
    ucf := Option.none, connectCode := Option.none,
    displayName := Option.none }

/-- game_start.rs GameStart::parse after the version triple: the fixed
header and per-participant blocks, then the ordered version-gate chain,
each failed gate returning immediately with defaults for every later
field.  The stage lookup unwrap panics on an unrecognized stage code,
the controller-fix unwrap on an invalid fix code, and the match-id
String::from_utf8 unwrap on invalid UTF-8. -/
def gameStartBody (fr : Foreign) (version : Version) :
    ReadM (GameStart × Version × List Player) := do
  advanceBy 9
  let isTeams ← getU8
  advanceBy 5
  let stageCode ← getU16
  let stage ← unwrapOpt
    (if fr.stageRecognized stageCode then some stageCode else Option.none)
  let timer ← getU32
  advanceBy 28
  let damageRatio ← getF32
  advanceBy 44
  let p0 ← readPlayerBlock fr 0
  let p1 ← readPlayerBlock fr 1
  let p2 ← readPlayerBlock fr 2
  let p3 ← readPlayerBlock fr 3
  advanceBy 72
  let randomSeed ← getU32
  let result0 : GameStart := {
    randomSeed := randomSeed, teams := isTeams != 0, stage := stage,
    timer := timer, damageRatio := damageRatio, pal := Option.none,
    frozenStadium := Option.none, netplay := Option.none,
    matchId := [], matchType := MatchType.unknown,
    gameNumber := Option.none, tiebreakNumber := Option.none }
  if version.atLeast 1 0 0 = false then
    ReadM.pure (result0, version, [p0, p1, p2, p3])
  else do
    let u0 ← readUcf
    let u1 ← readUcf
    let u2 ← readUcf
    let u3 ← readUcf
    let q0 : Player := { p0 with ucf := some u0 }
    let q1 : Player := { p1 with ucf := some u1 }
    let q2 : Player := { p2 with ucf := some u2 }
    let q3 : Player := { p3 with ucf := some u3 }
    if version.atLeast 1 3 0 = false then
      ReadM.pure (result0, version, [q0, q1, q2, q3])
    else do
      advanceBy 64
      if version.atLeast 1 5 0 = false then
        ReadM.pure (result0, version, [q0, q1, q2, q3])
      else do
        let palB ← getU8
        let result1 : GameStart := { result0 with pal := some (palB != 0) }
        if version.atLeast 2 0 0 = false then
          ReadM.pure (result1, version, [q0, q1, q2, q3])
        else do
          let frozenB ← getU8
          let result2 : GameStart :=
            { result1 with frozenStadium := some (frozenB != 0) }
          if version.atLeast 3 7 0 = false then
            ReadM.pure (result2, version, [q0, q1, q2, q3])
          else do
            advanceBy 1
            let netB ← getU8
            let result3 : GameStart :=
              { result2 with netplay := some (netB == 8) }
            if version.atLeast 3 9 0 = false then
              ReadM.pure (result3, version, [q0, q1, q2, q3])
            else do
              let d0 ← readDisplayName fr
              let d1 ← readDisplayName fr
              let d2 ← readDisplayName fr
              let d3 ← readDisplayName fr
              let c0 ← readConnectCode fr
              let c1 ← readConnectCode fr
              let c2 ← readConnectCode fr
              let c3 ← readConnectCode fr
              let r0 : Player :=
                { q0 with displayName := some d0, connectCode := some c0 }
              let r1 : Player :=
                { q1 with displayName := some d1, connectCode := some c1 }
              let r2 : Player :=
                { q2 with displayName := some d2, connectCode := some c2 }
              let r3 : Player :=
                { q3 with displayName := some d3, connectCode := some c3 }
              if version.atLeast 3 11 0 = false then
                ReadM.pure (result3, version, [r0, r1, r2, r3])
              else do
                advanceBy 116
                if version.atLeast 3 12 0 = false then
                  ReadM.pure (result3, version, [r0, r1, r2, r3])
                else do
                  advanceBy 1
                  if version.atLeast 3 14 0 = false then
                    ReadM.pure (result3, version, [r0, r1, r2, r3])
                  else do
                    let matchIdRaw ← takeBytes 51
                    let matchIdTrunc := truncAtZero matchIdRaw 50
                    let matchId ← unwrapOpt
                      (if isValidUtf8 matchIdTrunc then some matchIdTrunc
                       else Option.none)
                    let gameNumber ← getU32
                    let tiebreakNumber ← getU32
                    let matchType : MatchType :=
                      if 5 < matchIdTrunc.length then
                        (MatchType.fromRepr (matchIdTrunc.getD 5 0)).getD
                          MatchType.unknown
                      else MatchType.unknown
                    ReadM.pure ({ result3 with
                      matchId := matchId, matchType := matchType,
                      gameNumber := some gameNumber,
                      tiebreakNumber := some tiebreakNumber },
                      version, [r0, r1, r2, r3])

/-- game_start.rs GameStart::parse: the three version bytes, then the
versioned body. -/
def gameStartParse (fr : Foreign) :
    ReadM (GameStart × Version × List Player) := do
  let vmajor ← getU8
  let vminor ← getU8
  let vbuild ← getU8
  gameStartBody fr ⟨vmajor, vminor, vbuild⟩

/-- Bytes of the match-start body after the version triple, implied by
the longest prefix of satisfied gates. -/
def gameStartBodyExpected (v : Version) : Nat :=
  317 + (if v.atLeast 1 0 0 then
    32 + (if v.atLeast 1 3 0 then
      64 + (if v.atLeast 1 5 0 then
        1 + (if v.atLeast 2 0 0 then
          1 + (if v.atLeast 3 7 0 then
            2 + (if v.atLeast 3 9 0 then
              164 + (if v.atLeast 3 11 0 then
                116 + (if v.atLeast 3 12 0 then
                  1 + (if v.atLeast 3 14 0 then 59 else 0)
                else 0)
              else 0)
            else 0)
          else 0)
        else 0)
      else 0)
    else 0)
  else 0)

/-- Bytes of the whole match-start window implied by the longest prefix
of satisfied gates. -/
def gameStartExpected (v : Version) : Nat := 3 + gameStartBodyExpected v

/-! ### Test fixtures for concrete runs -/

/-- A test instantiation of the external interfaces on which every
lookup succeeds. -/
def frAllOk : Foreign := {
  charFromCSS := fun n => some (Character.other n),
  charDefault := Character.other 0,
  charFromInternal := fun n => some (Character.other n),
  nanaInternal := 14,
  getCostume := fun _ c => c,
  stageRecognized := fun _ => true,
  stateRecognized := fun _ _ => true,
  attackRecognized := fun _ => true,
  itemRecognized := fun _ => true,
  decodeShiftJis := fun _ => String.mk [],
  normalizeHash := fun t => t,
  ubjsonToMap := fun _ => .ok (some (-123), Option.none) }

/-- External interface recognizing only action-state code 0. -/
def frStateZero : Foreign :=
  { frAllOk with stateRecognized := fun code _ => code == 0 }

/-- An empty roster slot for test fixtures. -/
def emptyPlayer : Player := {
  port := Port.P1, playerType := PlayerType.empty,
  character := Character.other 0, startingStocks := 0, costume := 0,
  teamShade := 0, handicap := 0, teamId := 0, bitfield := 0, cpuLevel := 0,
  damageStart := 0, damageSpawn := 0, offenseRatio := 0, defenseRatio := 0,
  modelScale := 0, ucf := Option.none, connectCode := Option.none,
  displayName := Option.none }

/-- A human Zelda participant for test fixtures. -/
def zeldaPlayer : Player :=
  { emptyPlayer with
    playerType := PlayerType.human,
    character := Character.zelda }

/-- Roster with Zelda on port 1. -/
def c4Players : List Player :=
  [zeldaPlayer, emptyPlayer, emptyPlayer, emptyPlayer]

/-- A 64-byte pre-record window of zeros: the action-state code is 0. -/
def c4W1 : List Nat := List.replicate 64 0

/-- The same window with one byte changed: the action-state code
becomes 1. -/
def c4W2 : List Nat := List.replicate 11 0 ++ 1 :: List.replicate 52 0

/-- Leftover-stream length of a successful run (0 otherwise). -/
def restLen : Res (α × List Nat) → Nat
  | .ok (_, rest) => rest.length
  | _ => 0

def fsW : List Nat := List.replicate 8 0

def fsRes : FrameStart × List Nat :=
  match frameStartNew ⟨0, 1, 0⟩ fsW with
  | .ok p => p
  | _ => default

def feW : List Nat := List.replicate 4 0

def feRes : FrameEnd × List Nat :=
  match frameEndNew ⟨0, 1, 0⟩ feW with
  | .ok p => p
  | _ => default

def itW : List Nat := List.replicate 37 0

def itRes : ItemFrame × List Nat :=
  match itemFrameNew ⟨0, 1, 0⟩ itW with
  | .ok p => p
  | _ => default

def postW : List Nat := List.replicate 33 0

def postRes : PostFrame × List Nat :=
  match postFrameNew frAllOk ⟨0, 1, 0⟩ postW with
  | .ok p => p
  | _ => default

def preW : List Nat := List.replicate 58 0

def preRes : PreFrame × List Nat :=
  match preFrameNew frAllOk ⟨0, 1, 0⟩ c4Players preW with
  | .ok p => p
  | _ => default

def gsW : List Nat := List.replicate 320 0

def gsRes : (GameStart × Version × List Player) × List Nat :=
  match gameStartParse frAllOk gsW with
  | .ok p => p
  | _ => default

/-! ### Expected event order and the decode loop (parse.rs) -/

instance : Inhabited EventType := ⟨EventType.none⟩

/-- parse.rs Expected: one slot of the expected per-frame event cycle. -/
structure Expected where
  port : Port
  nana : Bool
  kind : EventType
deriving DecidableEq, Inhabited

/-- The event_order construction in validate_game: a start-marker slot;
per active (human/CPU) participant a pre-record slot plus, for Ice
Climbers, a companion pre-record slot with nana true; one item slot;
the same loop for post-record slots — where the source pushes the Ice
Climbers companion post slot with nana FALSE; and an end-marker slot. -/
def eventOrder (players : List Player) : List Expected :=
  let initial : List Expected :=
    [{ port := Port.P1, nana := false, kind := EventType.frameStart }]
  let withPre := players.foldl (fun acc player =>
    if player.playerType = PlayerType.cpu ∨ player.playerType = PlayerType.human then
      let acc1 := acc ++
        [{ port := player.port, nana := false, kind := EventType.preFrame }]
      if player.character = Character.iceClimbers then
        acc1 ++ [{ port := player.port, nana := true, kind := EventType.preFrame }]
      else acc1
    else acc) initial
  let withItem := withPre ++
    [{ port := Port.P1, nana := false, kind := EventType.item }]
  let withPost := players.foldl (fun acc player =>
    if player.playerType = PlayerType.cpu ∨ player.playerType = PlayerType.human then
      let acc1 := acc ++
        [{ port := player.port, nana := false, kind := EventType.postFrame }]
      if player.character = Character.iceClimbers then
        acc1 ++ [{ port := player.port, nana := false, kind := EventType.postFrame }]
      else acc1
    else acc) withItem
  withPost ++ [{ port := Port.P1, nana := false, kind := EventType.frameEnd }]

/-- Modelled from the spec: the match-end record decoder (the game_end
module is not under src); the spec says to treat it as an opaque
terminal record consumed once per file. -/
def gameEndNew (_window : List Nat) (_v : Version) : Unit := ()

instance : Inhabited SizeMap := ⟨SizeMap.empty⟩

/-- The mutable per-file session of validate_game: the stream position
is file length minus remaining stream length, as in the source. -/
structure LState where
  fileLen : Nat
  rawLength : Nat
  stream : List Nat
  event : EventType
  eventSizes : SizeMap
  version : Version
  players : List Player
  eventOrder : List Expected
  orderIdx : Nat
  needSync : Bool
  fstartIdx : Int
  actualFrames : Nat
  gameEnd : Option Unit
  errors : Nat
  warns : Nat
deriving Inhabited

/-- One loop iteration outcome: continue with a new state, leave the
loop (guard failed), or panic. -/
inductive StepRes where
  | next (st : LState)
  | stop (st : LState)
  | crashed
deriving Inhabited

/-- The shared tail of the pre-record and post-record branches: raise
the unexpected-ordering error and set the resynchronization flag only
when the flag is clear, the slot mismatched, and players.len() == 2 —
players is the fixed 4-element array, so the condition is the literal
4 == 2; then advance the cursor. -/
def orderTail (st : LState) (orderIdxA : Nat) (notExpA : Bool) : LState :=
  if st.needSync = false ∧ notExpA = true ∧ st.players.length = 2 then
    { st with
      needSync := true, errors := st.errors + 1, orderIdx := orderIdxA + 1 }
  else
    { st with orderIdx := orderIdxA + 1 }

/-- The item branch tail: identical checks, but the cursor is not
advanced past the item slot. -/
def itemTail (st : LState) (orderIdxA : Nat) (notExpA : Bool) : LState :=
  if st.needSync = false ∧ notExpA = true ∧ st.players.length = 2 then
    { st with
      needSync := true, errors := st.errors + 1, orderIdx := orderIdxA }
  else
    { st with orderIdx := orderIdxA }

/-- The end-marker branch tail: identical checks, then the cursor
resets to 0 unconditionally. -/
def fendTail (st : LState) (notExpA : Bool) : LState :=
  if st.needSync = false ∧ notExpA = true ∧ st.players.length = 2 then
    { st with needSync := true, errors := st.errors + 1, orderIdx := 0 }
  else
    { st with orderIdx := 0 }

/-- The FrameStart branch: count the frame, decode, check ordering
(resetting the cursor on failure), check the frame-index delta, then
advance the cursor. -/
def stepFrameStart (st : LState) (window : List Nat) : Res LState :=
  let actualFrames := st.actualFrames + 1
  let oldFrame := st.fstartIdx
  match frameStartNew st.version window with
  | .ok (fstart, _) =>
    match st.eventOrder.get? st.orderIdx with
    | Option.none => .crash
    | some expEvent =>
      let checked :=
        if st.needSync ∨ (expEvent.kind ≠ EventType.frameStart ∧ expEvent.nana = false) then
          (st.errors + 1, 0, false)
        else (st.errors, st.orderIdx, st.needSync)
      let errors2 :=
        if fstart.frameIdx - oldFrame > 1 ∨ fstart.frameIdx - oldFrame < -10 then
          checked.1 + 1
        else checked.1
      .ok { st with
        actualFrames := actualFrames, fstartIdx := fstart.frameIdx,
        errors := errors2, orderIdx := checked.2.1 + 1,
        needSync := checked.2.2 }
  | .err e => .err e
  | .crash => .crash

/-- The PreFrame branch: decode, build the observed key, apply the
one-slot companion-skip tolerance (the cursor+1 slot is indexed only
under not_exp and a companion expected slot, as in the source), then
the shared tail. -/
def stepPreFrame (fr : Foreign) (st : LState) (window : List Nat) : Res LState :=
  match preFrameNew fr st.version st.players window with
  | .ok (pre, _) =>
    match Port.fromRepr pre.port with
    | Option.none => .crash
    | some port =>
      match st.eventOrder.get? st.orderIdx with
      | Option.none => .crash
      | some expEvent =>
        let gotEvent : Expected :=
          { port := port, nana := pre.nana, kind := EventType.preFrame }
        let notExp := expEvent ≠ gotEvent
        if notExp ∧ expEvent.nana = true then
          match st.eventOrder.get? (st.orderIdx + 1) with
          | Option.none => .crash
          | some nextEvent =>
            if nextEvent = gotEvent then
              .ok (orderTail st (st.orderIdx + 1) false)
            else
              .ok (orderTail st st.orderIdx true)
        else
          .ok (orderTail st st.orderIdx (decide notExp))
  | .err e => .err e
  | .crash => .crash

/-- The PostFrame branch, the same pattern as PreFrame. -/
def stepPostFrame (fr : Foreign) (st : LState) (window : List Nat) : Res LState :=
  match postFrameNew fr st.version window with
  | .ok (post, _) =>
    match Port.fromRepr post.port with
    | Option.none => .crash
    | some port =>
      match st.eventOrder.get? st.orderIdx with
      | Option.none => .crash
      | some expEvent =>
        let gotEvent : Expected :=
          { port := port, nana := post.nana, kind := EventType.postFrame }
        let notExp := expEvent ≠ gotEvent
        if notExp ∧ expEvent.nana = true then
          match st.eventOrder.get? (st.orderIdx + 1) with
          | Option.none => .crash
          | some nextEvent =>
            if nextEvent = gotEvent then
              .ok (orderTail st (st.orderIdx + 1) false)
            else
              .ok (orderTail st st.orderIdx true)
        else
          .ok (orderTail st st.orderIdx (decide notExp))
  | .err e => .err e
  | .crash => .crash

/-- The FrameEnd branch: fixed observed key, companion-skip tolerance,
shared error check, then the cursor resets to 0. -/
def stepFrameEnd (st : LState) (window : List Nat) : Res LState :=
  match frameEndNew st.version window with
  | .ok (_, _) =>
    match st.eventOrder.get? st.orderIdx with
    | Option.none => .crash
    | some expEvent =>
      let gotEvent : Expected :=
        { port := Port.P1, nana := false, kind := EventType.frameEnd }
      let notExp := expEvent ≠ gotEvent
      if notExp ∧ expEvent.nana = true then
        match st.eventOrder.get? (st.orderIdx + 1) with
        | Option.none => .crash
        | some nextEvent =>
          if nextEvent = gotEvent then
            .ok (fendTail st false)
          else
            .ok (fendTail st true)
      else
        .ok (fendTail st (decide notExp))
  | .err e => .err e
  | .crash => .crash

/-- The Item branch: fixed observed key, companion-skip tolerance,
shared error check; the cursor does not advance past the item slot. -/
def stepItem (st : LState) (window : List Nat) : Res LState :=
  match itemFrameNew st.version window with
  | .ok (_, _) =>
    match st.eventOrder.get? st.orderIdx with
    | Option.none => .crash
    | some expEvent =>
      let gotEvent : Expected :=
        { port := Port.P1, nana := false, kind := EventType.item }
      let notExp := expEvent ≠ gotEvent
      if notExp ∧ expEvent.nana = true then
        match st.eventOrder.get? (st.orderIdx + 1) with
        | Option.none => .crash
        | some nextEvent =>
          if nextEvent = gotEvent then
            .ok (itemTail st (st.orderIdx + 1) false)
          else
            .ok (itemTail st st.orderIdx true)
      else
        .ok (itemTail st st.orderIdx (decide notExp))
  | .err e => .err e
  | .crash => .crash

/-- The GameEnd branch: a duplicate match-end only warns; the opaque
end record is decoded from the window. -/
def stepGameEnd (st : LState) (window : List Nat) : Res LState :=
  let warns1 := if st.gameEnd.isSome then st.warns + 1 else st.warns
  let ge := gameEndNew window st.version
  .ok { st with warns := warns1, gameEnd := some ge }

/-- The parse-loop guard of validate_game: position before the declared
raw length, previous event not the match end, stream not exhausted. -/
def loopGuard (st : LState) : Prop :=
  st.fileLen - st.stream.length < st.rawLength ∧
  st.event ≠ EventType.gameEnd ∧ st.stream ≠ []

instance (st : LState) : Decidable (loopGuard st) := by
  unfold loopGuard
  infer_instance

/-- One iteration of the parse loop: read the event code byte (an
unrecognized byte warns and falls back to EventType::None), look up the
size — the HashMap index panics when the key (None for unknown codes)
has no entry — slice the window (panicking when the declared size
exceeds the remaining stream, as slice/advance do), run the branch, and
advance the stream by the declared size. -/
def loopStep (fr : Foreign) (st : LState) : StepRes :=
  if loopGuard st then
    match st.stream with
    | [] => .crashed
    | code :: s1 =>
      let event := (EventType.fromRepr code).getD EventType.none
      let warns1 := if event = EventType.none then st.warns + 1 else st.warns
      let st1 := { st with warns := warns1 }
      match st1.eventSizes event with
      | Option.none => .crashed
      | some size =>
        if size ≤ s1.length then
          let window := s1.take size
          let afterArm : Res LState :=
            match event with
            | EventType.frameStart => stepFrameStart st1 window
            | EventType.preFrame => stepPreFrame fr st1 window
            | EventType.postFrame => stepPostFrame fr st1 window
            | EventType.frameEnd => stepFrameEnd st1 window
            | EventType.item => stepItem st1 window
            | EventType.gameEnd => stepGameEnd st1 window
            | _ => .ok st1
          match afterArm with
          | .ok st2 => .next { st2 with stream := s1.drop size, event := event }
          | _ => .crashed
        else .crashed
  else .stop st

/-- The parse loop, driven by explicit fuel.  Each iteration consumes
at least the code byte, so fuel equal to the stream length always
suffices (the fuel-exhaustion branch is unreachable then; see the
fuel-independence theorem). -/
def runLoop (fr : Foreign) : Nat → LState → Res LState
  | 0, st =>
    match loopStep fr st with
    | .stop s' => .ok s'
    | _ => .crash
  | n + 1, st =>
    match loopStep fr st with
    | .stop s' => .ok s'
    | .crashed => .crash
    | .next s' => runLoop fr n s'

/-- parse.rs expect_bytes: the range-get unwrap panics on a short
stream; a mismatch is a recoverable io error; a match advances. -/
def expectBytes (expected : List Nat) (e : PErr) : ReadM Unit := fun s =>
  if expected.length ≤ s.length then
    if s.take expected.length = expected then .ok ((), s.drop expected.length)
    else .err e
  else .crash

/-- The 11-byte Slippi envelope signature. -/
def slippiHeader : List Nat :=
  [0x7b, 0x55, 0x03, 0x72, 0x61, 0x77, 0x5b, 0x24, 0x55, 0x23, 0x6c]

/-- The 11-byte metadata key and type marker. -/
def metadataHeader : List Nat :=
  [0x55, 0x08, 0x6d, 0x65, 0x74, 0x61, 0x64, 0x61, 0x74, 0x61, 0x7b]

/-- validate_game (parse.rs): header check, raw length, metadata block
(through the spec-modelled ubjson interface), event-size table,
match-start decode, expected-order construction, then the parse loop.
Returns the final session state, a recoverable error, or a panic. -/
def validateGame (fr : Foreign) (fileData : List Nat) : Res LState :=
  match expectBytes slippiHeader .headerMismatch fileData with
  | .ok (_, stream0) =>
    match getU32 stream0 with
    | .ok (rawLen0, stream1) =>
      let rawLength := rawLen0 + 15
      if rawLength ≤ fileData.length then
        let tempMeta := fileData.drop rawLength
        match expectBytes metadataHeader .metadataMismatch tempMeta with
        | .ok (_, metaRest) =>
          match fr.ubjsonToMap metaRest with
          | .ok (lastFrame, _) =>
            let frameCount : Nat :=
              match lastFrame with
              | some last => (((last + 124) % 4294967296 + 4294967296) % 4294967296).toNat
              | Option.none => 0
            match getEventSizes stream1 with
            | .ok (sizes, stream2) =>
              match expectBytes [0x36] .gameStartCode stream2 with
              | .ok (_, stream3) =>
                match sizes EventType.gameStart with
                | Option.none => .crash
                | some gsSize =>
                  if gsSize ≤ stream3.length then
                    match gameStartParse fr (stream3.take gsSize) with
                    | .ok (out, _) =>
                      let stream4 := stream3.drop gsSize
                      let st0 : LState := {
                        fileLen := fileData.length + 0 * frameCount,
                        rawLength := rawLength,
                        stream := stream4, event := EventType.none,
                        eventSizes := sizes, version := out.2.1,
                        players := out.2.2,
                        eventOrder := eventOrder out.2.2,
                        orderIdx := 0, needSync := false, fstartIdx := -123,
                        actualFrames := 0, gameEnd := Option.none,
                        errors := 0, warns := 0 }
                      runLoop fr stream4.length st0
                    | .err e => .err e
                    | .crash => .crash
                  else .crash
              | .err e => .err e
              | .crash => .crash
            | .err e => .err e
            | .crash => .crash
          | .err e => .err e
          | .crash => .crash
        | .err e => .err e
        | .crash => .crash
      else .crash
    | .err e => .err e
    | .crash => .crash
  | .err e => .err e
  | .crash => .crash

/-! ### Fixtures for the loop and driver claims -/

/-- A human Ice Climbers participant on port 1. -/
def icPlayer : Player :=
  { emptyPlayer with
    playerType := PlayerType.human, character := Character.iceClimbers }

/-- A human participant on port 1 with a non-companion character. -/
def humanP1 : Player :=
  { emptyPlayer with playerType := PlayerType.human }

/-- A human participant on port 2 with a non-companion character. -/
def humanP2 : Player :=
  { emptyPlayer with playerType := PlayerType.human, port := Port.P2 }

/-- A one-on-one roster with Ice Climbers on port 1. -/
def c3Players : List Player := [icPlayer, humanP2, emptyPlayer, emptyPlayer]

/-- A standard one-on-one roster (2 active participants, 4 slots). -/
def c1Players : List Player := [humanP1, humanP2, emptyPlayer, emptyPlayer]

/-- A 58-byte pre-record window whose port byte (offset 4) is 1: a
pre-record for port 2. -/
def c1Window : List Nat := List.replicate 4 0 ++ 1 :: List.replicate 53 0

/-- A session state expecting the port-1 pre-record slot (cursor 1) that
is about to observe a port-2 pre-record instead: a mis-ordered
pre-record in a one-on-one match. -/
def c1St : LState := {
  fileLen := 59, rawLength := 100, stream := 0x37 :: c1Window,
  event := EventType.frameStart, eventSizes := buildSizeMap [(0x37, 58)],
  version := ⟨0, 1, 0⟩, players := c1Players,
  eventOrder := eventOrder c1Players, orderIdx := 1, needSync := false,
  fstartIdx := -123, actualFrames := 1, gameEnd := Option.none,
  errors := 0, warns := 0 }

/-- The state after stepping c1St. -/
def c1Next : LState :=
  match loopStep frAllOk c1St with
  | .next s => s
  | _ => default

/-- A state whose next event byte 0x34 is unrecognized and whose size
table has no entry for the fallback None kind. -/
def c2StA : LState :=
  { c1St with
    stream := [0x34], fileLen := 1,
    eventSizes := buildSizeMap [(0x36, 420)], event := EventType.none }

/-- A state whose next event byte 0x34 is unrecognized and whose size
table maps raw code 0x00 (the None kind) to 5. -/
def c2StB : LState :=
  { c1St with
    stream := 0x34 :: List.replicate 6 0, fileLen := 7,
    eventSizes := buildSizeMap [(0, 5)], event := EventType.none }

/-- The state after stepping c2StB. -/
def c2NextB : LState :=
  match loopStep frAllOk c2StB with
  | .next s => s
  | _ => default

/-- A state about to process a zero-payload Gecko list event. -/
def c9St : LState :=
  { c1St with
    stream := [0x3D], fileLen := 1,
    eventSizes := buildSizeMap [(0x3D, 0)], event := EventType.none }

/-- The state after stepping c9St. -/
def c9Next : LState :=
  match loopStep frAllOk c9St with
  | .next s => s
  | _ => default

/-- External interface on which no stage code is recognized. -/
def frStageBad : Foreign :=
  { frAllOk with stageRecognized := fun _ => false }

/-- External interface on which no internal character code resolves. -/
def frCharBad : Foreign :=
  { frAllOk with charFromInternal := fun _ => Option.none }

/-- External interface on which no CSS character code resolves. -/
def frCssNone : Foreign :=
  { frAllOk with charFromCSS := fun _ => Option.none }

/-- A match-start window declaring version 1.0.0 whose first
controller-fix u32 (absolute bytes 320..323) is 3, an invalid fix
code. -/
def c6W : List Nat := 1 :: List.replicate 322 0 ++ [3]

/-- An all-empty four-slot roster. -/
def c6Players : List Player := List.replicate 4 emptyPlayer

/-- The c9 session with its stream exhausted: the loop guard fails. -/
def c9Stop : LState := { c9St with stream := [] }

/-- The state produced by the pre-record branch on the mis-ordered
one-on-one window. -/
def c1Pre : LState :=
  match stepPreFrame frAllOk c1St c1Window with
  | .ok s => s
  | _ => default

/-- The state produced by the post-record branch on a 33-byte zero
window in the same mis-ordered one-on-one session. -/
def c1Post : LState :=
  match stepPostFrame frAllOk c1St postW with
  | .ok s => s
  | _ => default

/-! ### Theorems -/

/-! ### Inversion lemmas for successful runs -/

theorem pure_ok {α : Type} {a b : α} {s s' : List Nat} :
    (ReadM.pure a) s = .ok (b, s') ↔ b = a ∧ s' = s := by
  unfold ReadM.pure
  constructor
  · intro h
    injection h with h'
    injection h' with h1 h2
    exact ⟨h1.symm, h2.symm⟩
  · rintro ⟨rfl, rfl⟩
    rfl

theorem bind_ok {α β : Type} {m : ReadM α} {f : α → ReadM β} {s : List Nat}
    {b : β} {s'' : List Nat} :
    (m >>= f) s = .ok (b, s'') ↔
      ∃ a s', m s = .ok (a, s') ∧ f a s' = .ok (b, s'') := by
  show ReadM.bind m f s = _ ↔ _
  unfold ReadM.bind
  cases h : m s with
  | ok p =>
    cases p with
    | mk a s' =>
      constructor
      · intro hf
        exact ⟨a, s', rfl, hf⟩
      · rintro ⟨a1, s1, h1, h2⟩
        injection h1 with h1'
        injection h1' with e1 e2
        show f a s' = _
        rw [e1, e2]
        exact h2
  | err e =>
    constructor
    · intro hf
      exact absurd hf (by simp)
    · rintro ⟨a1, s1, h1, -⟩
      exact absurd h1 (by simp)
  | crash =>
    constructor
    · intro hf
      exact absurd hf (by simp)
    · rintro ⟨a1, s1, h1, -⟩
      exact absurd h1 (by simp)

theorem getU8_ok {a : Nat} {s s' : List Nat} :
    getU8 s = .ok (a, s') ↔ s = a :: s' := by
  cases s with
  | nil => simp [getU8]
  | cons b rest =>
    simp only [getU8]
    constructor
    · intro h
      injection h with h'
      injection h' with h1 h2
      simp [h1, h2]
    · intro h
      injection h with h1 h2
      simp [h1, h2]

theorem takeBytes_ok {n : Nat} {l : List Nat} {s s' : List Nat} :
    takeBytes n s = .ok (l, s') ↔
      n ≤ s.length ∧ l = s.take n ∧ s' = s.drop n := by
  unfold takeBytes
  split
  · rename_i h
    constructor
    · intro he
      injection he with h'
      injection h' with h1 h2
      exact ⟨h, h1.symm, h2.symm⟩
    · rintro ⟨-, rfl, rfl⟩
      rfl
  · rename_i h
    constructor
    · intro he
      exact absurd he (by simp)
    · rintro ⟨hn, -, -⟩
      exact absurd hn h

theorem getU16_ok {x : Nat} {s s' : List Nat} :
    getU16 s = .ok (x, s') ↔ ∃ a b, s = a :: b :: s' ∧ x = a * 256 + b := by
  unfold getU16
  simp only [bind_ok, getU8_ok, pure_ok]
  constructor
  · rintro ⟨a, s1, rfl, b, s2, rfl, rfl, rfl⟩
    exact ⟨a, b, rfl, rfl⟩
  · rintro ⟨a, b, rfl, rfl⟩
    exact ⟨a, b :: s', rfl, b, s', rfl, rfl, rfl⟩

theorem getU32_ok {x : Nat} {s s' : List Nat} :
    getU32 s = .ok (x, s') ↔
      ∃ a b c d, s = a :: b :: c :: d :: s' ∧
        x = (a * 256 + b) * 65536 + (c * 256 + d) := by
  unfold getU32
  simp only [bind_ok, getU16_ok, pure_ok]
  constructor
  · rintro ⟨u, s1, ⟨a, b, rfl, rfl⟩, v, s2, ⟨c, d, rfl, rfl⟩, rfl, rfl⟩
    exact ⟨a, b, c, d, rfl, rfl⟩
  · rintro ⟨a, b, c, d, rfl, rfl⟩
    exact ⟨a * 256 + b, c :: d :: s', ⟨a, b, rfl, rfl⟩,
      c * 256 + d, s', ⟨c, d, rfl, rfl⟩, rfl, rfl⟩

theorem consumes_pure {α : Type} (a : α) : Consumes (ReadM.pure a) 0 := by
  intro s b s' h
  rw [pure_ok] at h
  rw [h.2]
  simp

theorem consumes_bind {α β : Type} {m : ReadM α} {f : α → ReadM β} {n k : Nat}
    (hm : Consumes m n) (hf : ∀ a, Consumes (f a) k) :
    Consumes (m >>= f) (n + k) := by
  intro s b s'' h
  rw [bind_ok] at h
  obtain ⟨a, s', h1, h2⟩ := h
  have e1 := hm s a s' h1
  have e2 := hf a s' b s'' h2
  omega

theorem consumes_getU8 : Consumes getU8 1 := by
  intro s a s' h
  rw [getU8_ok] at h
  subst h
  simp only [List.length_cons]
  omega

theorem consumes_takeBytes (n : Nat) : Consumes (takeBytes n) n := by
  intro s l s' h
  rw [takeBytes_ok] at h
  obtain ⟨hn, -, rfl⟩ := h
  simp only [List.length_drop]
  omega

theorem consumes_advanceBy (n : Nat) : Consumes (advanceBy n) n := by
  have := consumes_bind (consumes_takeBytes n)
    (fun l => consumes_pure (α := Unit) ())
  simpa [advanceBy] using this

theorem consumes_getU16 : Consumes getU16 2 := by
  have h1 : Consumes getU16 (1 + (1 + 0)) := by
    apply consumes_bind consumes_getU8
    intro a
    apply consumes_bind consumes_getU8
    intro b
    exact consumes_pure _
  simpa using h1

theorem consumes_getU32 : Consumes getU32 4 := by
  have h1 : Consumes getU32 (2 + (2 + 0)) := by
    apply consumes_bind consumes_getU16
    intro a
    apply consumes_bind consumes_getU16
    intro b
    exact consumes_pure _
  simpa using h1

theorem consumes_getI32 : Consumes getI32 4 := by
  have h1 : Consumes getI32 (4 + 0) := by
    apply consumes_bind consumes_getU32
    intro a
    exact consumes_pure _
  simpa using h1

theorem consumes_getI8 : Consumes getI8 1 := by
  have h1 : Consumes getI8 (1 + 0) := by
    apply consumes_bind consumes_getU8
    intro a
    exact consumes_pure _
  simpa using h1

theorem consumes_getF32 : Consumes getF32 4 := consumes_getU32

theorem consumes_unwrapOpt (o : Option α) : Consumes (unwrapOpt o) 0 := by
  cases o with
  | some a => exact consumes_pure a
  | none =>
    intro s b s' h
    exact absurd h (by simp [unwrapOpt])

theorem consumes_readIf {m : ReadM α} {n : Nat} (c : Bool)
    (hm : Consumes m n) :
    Consumes (readIf c m) (if c then n else 0) := by
  unfold readIf
  cases c with
  | true =>
    simp only [if_true]
    have h1 : Consumes (do let a ← m; ReadM.pure (some a)) (n + 0) := by
      apply consumes_bind hm
      intro a
      exact consumes_pure _
    simpa using h1
  | false =>
    simpa using consumes_pure (α := Option α) none

theorem readIf_ok {c : Bool} {m : ReadM α} {o : Option α} {s s' : List Nat} :
    readIf c m s = .ok (o, s') ↔
      (c = true ∧ ∃ a, m s = .ok (a, s') ∧ o = some a) ∨
      (c = false ∧ o = none ∧ s' = s) := by
  cases c with
  | true =>
    have key : readIf true m s = .ok (o, s') ↔
        ∃ a, m s = .ok (a, s') ∧ o = some a := by
      unfold readIf
      rw [if_pos rfl]
      simp only [bind_ok, pure_ok]
      constructor
      · rintro ⟨a, s1, h1, rfl, rfl⟩
        exact ⟨a, h1, rfl⟩
      · rintro ⟨a, h1, rfl⟩
        exact ⟨a, s', h1, rfl, rfl⟩
    rw [key]
    simp
  | false =>
    have key : readIf false m s = .ok (o, s') ↔ o = none ∧ s' = s := by
      unfold readIf
      rw [if_neg (by simp)]
      exact pure_ok
    rw [key]
    simp

/-- Unfold the derived comparison into an explicit lexicographic order. -/
theorem Version.ltP_iff (a b : Version) :
    Version.ltP a b ↔
      a.major < b.major ∨ (a.major = b.major ∧
        (a.minor < b.minor ∨ (a.minor = b.minor ∧ a.build < b.build))) := by
  unfold Version.ltP Version.cmp
  cases ho : compare a.major b.major with
  | lt =>
    have hm := Nat.compare_eq_lt.1 ho
    constructor
    · intro _
      exact Or.inl hm
    · intro _
      rfl
  | eq =>
    have hm := Nat.compare_eq_eq.1 ho
    show (compare a.minor b.minor).then (compare a.build b.build) = .lt ↔ _
    cases ho2 : compare a.minor b.minor with
    | lt =>
      have hm2 := Nat.compare_eq_lt.1 ho2
      constructor
      · intro _
        exact Or.inr ⟨hm, Or.inl hm2⟩
      · intro _
        rfl
    | eq =>
      have hm2 := Nat.compare_eq_eq.1 ho2
      show compare a.build b.build = .lt ↔ _
      rw [Nat.compare_eq_lt]
      constructor
      · intro h3
        exact Or.inr ⟨hm, Or.inr ⟨hm2, h3⟩⟩
      · rintro (h | ⟨-, h | ⟨-, h3⟩⟩) <;> omega
    | gt =>
      have hm2 := Nat.compare_eq_gt.1 ho2
      constructor
      · intro hcontra
        exact absurd hcontra (by simp [Ordering.then])
      · rintro (h | ⟨-, h | ⟨h, -⟩⟩) <;> omega
  | gt =>
    have hm := Nat.compare_eq_gt.1 ho
    constructor
    · intro hcontra
      exact absurd hcontra (by simp [Ordering.then])
    · rintro (h | ⟨h, -⟩) <;> omega

/-- at_least is the negation of the strict order against the argument
triple. -/
theorem Version.atLeast_iff (v : Version) (a b c : Nat) :
    Version.atLeast v a b c = true ↔ ¬ Version.ltP v ⟨a, b, c⟩ := by
  unfold Version.atLeast Version.ltP
  cases h : Version.cmp v ⟨a, b, c⟩ <;> simp [h]

/-- C8: Version comparison is a strict total order on (major, minor,
build) triples, lexicographic with major most significant; for v1 < v2,
v2.at_least(v1) is true and v1.at_least(v2) is false; and at_least holds
exactly when the receiver is greater than or equal to the argument
triple. -/
theorem claim_C8 :
    (∀ v : Version, ¬ Version.ltP v v) ∧
    (∀ u v w : Version, Version.ltP u v → Version.ltP v w → Version.ltP u w) ∧
    (∀ u v : Version, Version.ltP u v ∨ u = v ∨ Version.ltP v u) ∧
    (∀ v1 v2 : Version, Version.ltP v1 v2 →
      Version.atLeast v2 v1.major v1.minor v1.build = true ∧
      Version.atLeast v1 v2.major v2.minor v2.build = false) ∧
    (∀ (v : Version) (a b c : Nat),
      Version.atLeast v a b c = true ↔
        (Version.ltP ⟨a, b, c⟩ v ∨ v = ⟨a, b, c⟩)) := by
  refine ⟨?_, ?_, ?_, ?_, ?_⟩
  · intro v
    rw [Version.ltP_iff]
    omega
  · intro u v w h1 h2
    rw [Version.ltP_iff] at h1 h2 ⊢
    omega
  · intro u v
    cases u with
    | mk a b c =>
      cases v with
      | mk d e f =>
        rw [Version.ltP_iff, Version.ltP_iff]
        simp only [Version.mk.injEq]
        omega
  · intro v1 v2 h
    cases v1 with
    | mk a b c =>
      cases v2 with
      | mk d e f =>
        rw [Version.ltP_iff] at h
        constructor
        · rw [Version.atLeast_iff, Version.ltP_iff]
          simp only at h ⊢
          omega
        · rw [Bool.eq_false_iff]
          intro hcontra
          rw [Version.atLeast_iff, Version.ltP_iff] at hcontra
          simp only at h hcontra
          omega
  · intro v a b c
    cases v with
    | mk x y z =>
      rw [Version.atLeast_iff, Version.ltP_iff, Version.ltP_iff]
      simp only [Version.mk.injEq]
      omega

/-- C8 witness at a concrete pair of versions. -/
theorem claim_C8_witness :
    Version.ltP ⟨1, 2, 3⟩ ⟨1, 3, 0⟩ ∧
    Version.atLeast ⟨1, 3, 0⟩ 1 2 3 = true ∧
    Version.atLeast ⟨1, 2, 3⟩ 1 3 0 = false := by
  have h : Version.ltP ⟨1, 2, 3⟩ ⟨1, 3, 0⟩ := by decide
  have h2 := claim_C8.2.2.2.1 ⟨1, 2, 3⟩ ⟨1, 3, 0⟩ h
  exact ⟨h, h2.1, h2.2⟩

theorem readSizeEntries_encode (l : List (Nat × Nat)) :
    ∀ (m : SizeMap) (rest : List Nat),
      (∀ e ∈ l, (EventType.fromRepr e.1).isSome ∧ e.2 < 65536) →
      readSizeEntries l.length m (encodeEntries l ++ rest) =
        .ok (l.foldl
          (fun m2 e => m2.insert ((EventType.fromRepr e.1).getD EventType.none) e.2)
          m, rest) := by
  induction l with
  | nil =>
    intro m rest h
    rfl
  | cons e tl ih =>
    intro m rest h
    have hhead := h e (by simp)
    obtain ⟨ev, hev⟩ := Option.isSome_iff_exists.1 hhead.1
    have he2 : e.2 / 256 * 256 + e.2 % 256 = e.2 := by omega
    have htl : ∀ x ∈ tl, (EventType.fromRepr x.1).isSome ∧ x.2 < 65536 :=
      fun x hx => h x (by simp [hx])
    show readSizeEntries (tl.length + 1) m
        (e.1 :: e.2 / 256 :: e.2 % 256 :: (encodeEntries tl ++ rest)) = _
    simp only [readSizeEntries]
    rw [bind_ok]
    refine ⟨e.1, _, by rw [getU8_ok], ?_⟩
    rw [bind_ok]
    refine ⟨ev, _, by rw [hev]; rfl, ?_⟩
    rw [bind_ok]
    refine ⟨e.2 / 256 * 256 + e.2 % 256, _, by rw [getU16_ok]; exact ⟨_, _, rfl, rfl⟩, ?_⟩
    rw [he2]
    have := ih (m.insert ev e.2) rest htl
    rw [this]
    simp only [List.foldl_cons, hev, Option.getD_some]

set_option maxRecDepth 4000 in
/-- C7 counterexample: with table length byte L = 0 the u8 subtraction
wraps to 255, the divisibility check passes, and the decoder returns
successfully (after attempting 85 entry reads) instead of failing with a
format error, contradicting the exact-arithmetic reading of the claim. -/
theorem claim_C7_counterexample :
    (Res.isOk (getEventSizes (0x35 :: 0 :: List.replicate 255 0)) = true) ∧
    ((0 : Int) - 1) % 3 ≠ 0 := by
  constructor
  · rfl
  · decide

/-- C7 (amended): the length check runs in wrapping 8-bit arithmetic, so
L = 0 wraps to 255 and passes; for 1 ≤ L ≤ 255 the decoder fails with
the table-length format error exactly when (L-1) mod 3 is nonzero, and
otherwise reads exactly (L-1)/3 entries of (1-byte recognized code,
2-byte big-endian length) into the mapping, later duplicates
overwriting earlier ones (an unrecognized entry code is a panic, not an
insert). -/
theorem claim_C7 :
    (∀ (L : Nat) (rest : List Nat), 1 ≤ L → L ≤ 255 → (L - 1) % 3 ≠ 0 →
      getEventSizes (0x35 :: L :: rest) = .err .payloadsLen) ∧
    (∀ (entries : List (Nat × Nat)) (rest : List Nat),
      entries.length ≤ 84 →
      (∀ e ∈ entries, (EventType.fromRepr e.1).isSome ∧ e.2 < 65536) →
      getEventSizes (0x35 :: (3 * entries.length + 1) :: (encodeEntries entries ++ rest)) =
        .ok (buildSizeMap entries, rest)) ∧
    (∀ (m : SizeMap) (k : EventType) (v w : Nat) (x : EventType),
      ((m.insert k v).insert k w) x = (m.insert k w) x) := by
  refine ⟨?_, ?_, ?_⟩
  · intro L rest h1 h2 h3
    have hn : (L + 255) % 256 = L - 1 := by omega
    show (if (L + 255) % 256 % 3 = 0 then
            readSizeEntries ((L + 255) % 256 / 3) SizeMap.empty
          else fun _ => Res.err .payloadsLen) rest = Res.err .payloadsLen
    rw [hn, if_neg h3]
  · intro entries rest hlen h
    have key := readSizeEntries_encode entries SizeMap.empty rest h
    have hn : (3 * entries.length + 1 + 255) % 256 = 3 * entries.length := by
      omega
    show (if (3 * entries.length + 1 + 255) % 256 % 3 = 0 then
            readSizeEntries ((3 * entries.length + 1 + 255) % 256 / 3) SizeMap.empty
          else fun _ => Res.err .payloadsLen) (encodeEntries entries ++ rest) = _
    rw [hn]
    have h3 : 3 * entries.length % 3 = 0 := by omega
    rw [if_pos h3]
    have hdiv : 3 * entries.length / 3 = entries.length := by omega
    rw [hdiv]
    exact key
  · intro m k v w x
    simp only [SizeMap.insert]
    by_cases hx : x = k
    · simp [hx]
    · simp [hx]

/-- C7 witness: a length byte of 5 fails with the format error, and a
one-entry table decodes into the expected mapping. -/
theorem claim_C7_witness :
    getEventSizes [0x35, 5] = .err .payloadsLen ∧
    getEventSizes (0x35 :: 4 :: (encodeEntries [(0x36, 420)] ++ [9])) =
      .ok (buildSizeMap [(0x36, 420)], [9]) := by
  constructor
  · exact claim_C7.1 5 [] (by decide) (by decide) (by decide)
  · exact claim_C7.2.1 [(0x36, 420)] [9] (by decide) (by decide)

theorem consumes_congr {m : ReadM α} {n k : Nat}
    (h : Consumes m n) (e : n = k) : Consumes m k := e ▸ h

theorem consumesD_of {m : ReadM α} {n : Nat} (h : Consumes m n) :
    ConsumesD m n n :=
  fun s a s' hr => Or.inl (h s a s' hr)

theorem consumesD_congr {m : ReadM α} {n1 n2 k1 k2 : Nat}
    (h : ConsumesD m n1 n2) (e1 : n1 = k1) (e2 : n2 = k2) :
    ConsumesD m k1 k2 := e1 ▸ e2 ▸ h

theorem consumes_bindD {m : ReadM α} {f : α → ReadM β} {n p q : Nat}
    (hm : Consumes m n) (hf : ∀ a, ConsumesD (f a) p q) :
    ConsumesD (m >>= f) (n + p) (n + q) := by
  intro s b s'' h
  rw [bind_ok] at h
  obtain ⟨a, s', h1, h2⟩ := h
  have e1 := hm s a s' h1
  rcases hf a s' b s'' h2 with e2 | e2
  · left; omega
  · right; omega

theorem consumesD_bind {m : ReadM α} {f : α → ReadM β} {p q k : Nat}
    (hm : ConsumesD m p q) (hf : ∀ a, Consumes (f a) k) :
    ConsumesD (m >>= f) (p + k) (q + k) := by
  intro s b s'' h
  rw [bind_ok] at h
  obtain ⟨a, s', h1, h2⟩ := h
  have e2 := hf a s' b s'' h2
  rcases hm s a s' h1 with e1 | e1
  · left; omega
  · right; omega

theorem runOk_pure {P : α → Prop} {a : α} (h : P a) : RunOk (ReadM.pure a) P := by
  intro s b s' hr
  rw [pure_ok] at hr
  rw [hr.1]
  exact h

theorem runOk_bind {m : ReadM α} {f : α → ReadM β} {P : β → Prop}
    (hf : ∀ a, RunOk (f a) P) : RunOk (m >>= f) P := by
  intro s b s'' h
  rw [bind_ok] at h
  obtain ⟨a, s', -, h2⟩ := h
  exact hf a s' b s'' h2

theorem runOk_bind_strong {m : ReadM α} {f : α → ReadM β}
    {Q : α → Prop} {P : β → Prop}
    (hm : RunOk m Q) (hf : ∀ a, Q a → RunOk (f a) P) :
    RunOk (m >>= f) P := by
  intro s b s'' h
  rw [bind_ok] at h
  obtain ⟨a, s', h1, h2⟩ := h
  exact hf a (hm s a s' h1) s' b s'' h2

theorem runOk_ite (c : Prop) [Decidable c] {m1 m2 : ReadM α} {P : α → Prop}
    (h1 : c → RunOk m1 P) (h2 : ¬ c → RunOk m2 P) :
    RunOk (if c then m1 else m2) P := by
  intro s a s' h
  split at h
  · rename_i hc
    exact h1 hc s a s' h
  · rename_i hc
    exact h2 hc s a s' h

theorem runOk_readIf_isSome (c : Bool) (m : ReadM α) :
    RunOk (readIf c m) (fun o => o.isSome = c) := by
  intro s o s' h
  rcases readIf_ok.1 h with ⟨hc, a, -, rfl⟩ | ⟨hc, rfl, -⟩ <;> simp [hc]

/-- Peel one version-gated read off a decoder, remembering that the
bound option is some exactly when the gate held. -/
theorem runOk_bind_readIf {c : Bool} {m : ReadM α} {f : Option α → ReadM β}
    {P : β → Prop}
    (hf : ∀ o : Option α, o.isSome = c → RunOk (f o) P) :
    RunOk (readIf c m >>= f) P :=
  runOk_bind_strong (runOk_readIf_isSome c m) hf

/-- If the triple (a,b,c) is not above (d,e,f), a version at least
(a,b,c) is at least (d,e,f).  This is the monotonicity that makes the
satisfied gates of an ordered chain a prefix. -/
theorem atLeast_mono (v : Version) (a b c d e f : Nat)
    (h : ¬ Version.ltP ⟨a, b, c⟩ ⟨d, e, f⟩)
    (ha : v.atLeast a b c = true) : v.atLeast d e f = true := by
  rw [Version.atLeast_iff] at ha ⊢
  intro hcontra
  apply ha
  cases v with
  | mk x y z =>
    simp only [Version.ltP_iff] at h hcontra ⊢
    omega

/-- Contrapositive form: a failed gate forces every later gate in the
chain to fail as well. -/
theorem atLeast_false_mono (v : Version) (a b c d e f : Nat)
    (h : ¬ Version.ltP ⟨a, b, c⟩ ⟨d, e, f⟩)
    (hf : v.atLeast d e f = false) : v.atLeast a b c = false := by
  cases hx : v.atLeast a b c with
  | false => rfl
  | true =>
    have := atLeast_mono v a b c d e f h hx
    rw [hf] at this
    cases this

theorem frameStartNew_consumes (v : Version) :
    Consumes (frameStartNew v) (frameStartExpected v) := by
  have h1 : Consumes (frameStartNew v)
      (4 + (4 + ((if v.atLeast 3 10 0 then 4 else 0) + 0))) := by
    unfold frameStartNew
    apply consumes_bind consumes_getI32
    intro a
    apply consumes_bind consumes_getU32
    intro b
    apply consumes_bind (consumes_readIf _ consumes_getU32)
    intro c
    exact consumes_pure _
  refine consumes_congr h1 ?_
  unfold frameStartExpected
  by_cases hb : v.atLeast 3 10 0 = true
  · simp [hb]
  · rw [Bool.not_eq_true] at hb
    simp [hb]

theorem frameEndNew_consumes (v : Version) :
    Consumes (frameEndNew v) (frameEndExpected v) := by
  have h1 : Consumes (frameEndNew v)
      (4 + ((if v.atLeast 3 7 0 then 4 else 0) + 0)) := by
    unfold frameEndNew
    apply consumes_bind consumes_getI32
    intro a
    apply consumes_bind (consumes_readIf _ consumes_getI32)
    intro c
    exact consumes_pure _
  refine consumes_congr h1 ?_
  unfold frameEndExpected
  by_cases hb : v.atLeast 3 7 0 = true
  · simp [hb]
  · rw [Bool.not_eq_true] at hb
    simp [hb]

theorem frameStartNew_fields (v : Version) :
    RunOk (frameStartNew v)
      (fun r => r.frameCounter.isSome = v.atLeast 3 10 0) := by
  unfold frameStartNew
  apply runOk_bind
  intro a
  apply runOk_bind
  intro b
  apply runOk_bind_readIf
  intro c hc
  apply runOk_pure
  exact hc

theorem frameEndNew_fields (v : Version) :
    RunOk (frameEndNew v)
      (fun r => r.latestFinalized.isSome = v.atLeast 3 7 0) := by
  unfold frameEndNew
  apply runOk_bind
  intro a
  apply runOk_bind_readIf
  intro c hc
  apply runOk_pure
  exact hc

theorem itemFrameNew_consumes (v : Version) :
    Consumes (itemFrameNew v) (itemFrameExpected v) := by
  have hbase : Consumes (itemFrameNew v)
      (4 + (2 + (1 + (4 + (4 + (4 + (4 + (4 + (2 + (4 + (4 +
        ((if v.atLeast 3 2 0 then 1 else 0) +
        ((if v.atLeast 3 2 0 then 1 else 0) +
        ((if v.atLeast 3 2 0 then 1 + 0 else 0) +
        ((if v.atLeast 3 2 0 then 1 else 0) +
        ((if v.atLeast 3 6 0 then 1 else 0) +
        ((if v.atLeast 3 16 0 then 2 else 0) +
         0))))))))))))))))) := by
    unfold itemFrameNew
    apply consumes_bind consumes_getI32
    intro x1
    apply consumes_bind consumes_getU16
    intro x2
    apply consumes_bind consumes_getU8
    intro x3
    apply consumes_bind consumes_getF32
    intro x4
    apply consumes_bind consumes_getF32
    intro x5
    apply consumes_bind consumes_getF32
    intro x6
    apply consumes_bind consumes_getF32
    intro x7
    apply consumes_bind consumes_getF32
    intro x8
    apply consumes_bind consumes_getU16
    intro x9
    apply consumes_bind consumes_getF32
    intro x10
    apply consumes_bind consumes_getU32
    intro x11
    apply consumes_bind (consumes_readIf _ consumes_getU8)
    intro x12
    apply consumes_bind (consumes_readIf _ consumes_getU8)
    intro x13
    apply consumes_bind (consumes_readIf _
      (consumes_bind consumes_getU8 (fun b => consumes_pure _)))
    intro x14
    apply consumes_bind (consumes_readIf _ consumes_getU8)
    intro x15
    apply consumes_bind (consumes_readIf _ consumes_getI8)
    intro x16
    apply consumes_bind (consumes_readIf _ consumes_getU16)
    intro x17
    exact consumes_pure _
  refine consumes_congr hbase ?_
  by_cases h1 : v.atLeast 3 2 0 = true
  · by_cases h2 : v.atLeast 3 6 0 = true
    · by_cases h3 : v.atLeast 3 16 0 = true
      · simp [itemFrameExpected, h1, h2, h3]
      · rw [Bool.not_eq_true] at h3
        simp [itemFrameExpected, h1, h2, h3]
    · rw [Bool.not_eq_true] at h2
      have h3 : v.atLeast 3 16 0 = false :=
        atLeast_false_mono v 3 16 0 3 6 0 (by decide) h2
      simp [itemFrameExpected, h1, h2, h3]
  · rw [Bool.not_eq_true] at h1
    have h2 : v.atLeast 3 6 0 = false :=
      atLeast_false_mono v 3 6 0 3 2 0 (by decide) h1
    have h3 : v.atLeast 3 16 0 = false :=
      atLeast_false_mono v 3 16 0 3 2 0 (by decide) h1
    simp [itemFrameExpected, h1, h2, h3]

theorem itemFrameNew_fields (v : Version) :
    RunOk (itemFrameNew v) (fun r =>
      r.missileType.isSome = v.atLeast 3 2 0 ∧
      r.turnipType.isSome = v.atLeast 3 2 0 ∧
      r.launched.isSome = v.atLeast 3 2 0 ∧
      r.chargePower.isSome = v.atLeast 3 2 0 ∧
      r.owner.isSome = v.atLeast 3 6 0 ∧
      r.instanceId.isSome = v.atLeast 3 16 0) := by
  unfold itemFrameNew
  apply runOk_bind
  intro x1
  apply runOk_bind
  intro x2
  apply runOk_bind
  intro x3
  apply runOk_bind
  intro x4
  apply runOk_bind
  intro x5
  apply runOk_bind
  intro x6
  apply runOk_bind
  intro x7
  apply runOk_bind
  intro x8
  apply runOk_bind
  intro x9
  apply runOk_bind
  intro x10
  apply runOk_bind
  intro x11
  apply runOk_bind_readIf
  intro o1 h1
  apply runOk_bind_readIf
  intro o2 h2
  apply runOk_bind_readIf
  intro o3 h3
  apply runOk_bind_readIf
  intro o4 h4
  apply runOk_bind_readIf
  intro o5 h5
  apply runOk_bind_readIf
  intro o6 h6
  apply runOk_pure
  exact ⟨h1, h2, h3, h4, h5, h6⟩

theorem consumes_postFrameValidate (fr : Foreign) (r : PostFrame) :
    Consumes (postFrameValidate fr r) 0 := consumes_unwrapOpt _

theorem consumesD_left {m : ReadM α} {n : Nat} (k : Nat) (h : Consumes m n) :
    ConsumesD m n k := fun s a s' hr => Or.inl (h s a s' hr)

theorem consumesD_right {m : ReadM α} {n : Nat} (k : Nat) (h : Consumes m n) :
    ConsumesD m k n := fun s a s' hr => Or.inr (h s a s' hr)

theorem bind_crash {m : ReadM α} {f : α → ReadM β} {s : List Nat} :
    (m >>= f) s = .crash ↔
      (m s = .crash ∨ ∃ a s', m s = .ok (a, s') ∧ f a s' = .crash) := by
  show ReadM.bind m f s = _ ↔ _
  unfold ReadM.bind
  cases h : m s with
  | ok p =>
    cases p with
    | mk a s' =>
      constructor
      · intro hf
        exact Or.inr ⟨a, s', rfl, hf⟩
      · rintro (hc | ⟨a1, s1, h1, h2⟩)
        · exact absurd hc (by simp)
        · injection h1 with h1'
          injection h1' with e1 e2
          show f a s' = _
          rw [e1, e2]
          exact h2
  | err e =>
    constructor
    · intro hf
      exact absurd hf (by simp)
    · rintro (hc | ⟨a1, s1, h1, -⟩)
      · exact absurd hc (by simp)
      · exact absurd h1 (by simp)
  | crash =>
    constructor
    · intro hf
      exact Or.inl rfl
    · intro hf
      rfl

theorem postFrameNew_consumes (fr : Foreign) (v : Version) :
    Consumes (postFrameNew fr v) (postFrameExpected v) := by
  have hbase : Consumes (postFrameNew fr v)
      (4 + (1 + (1 + (1 + (2 + (4 + (4 + (4 + (4 + (4 + (1 + (1 + (1 + (1 +
        ((if v.atLeast 0 2 0 then 4 else 0) +
        ((if v.atLeast 2 0 0 then 1 + (1 + (1 + (1 + (1 + 0)))) else 0) +
        ((if v.atLeast 2 0 0 then 4 else 0) +
        ((if v.atLeast 2 0 0 then 1 + 0 else 0) +
        ((if v.atLeast 2 0 0 then 2 else 0) +
        ((if v.atLeast 2 0 0 then 1 else 0) +
        ((if v.atLeast 2 0 0 then 1 else 0) +
        ((if v.atLeast 3 1 0 then 1 else 0) +
        ((if v.atLeast 3 5 0 then 4 + (4 + 0) else 0) +
        ((if v.atLeast 3 5 0 then 4 + (4 + 0) else 0) +
        ((if v.atLeast 3 5 0 then 4 + 0 else 0) +
        ((if v.atLeast 3 8 0 then 4 else 0) +
        ((if v.atLeast 3 11 0 then 4 else 0) +
        ((if v.atLeast 3 16 0 then 2 else 0) +
        ((if v.atLeast 3 16 0 then 2 else 0) +
         (0 + 0)))))))))))))))))))))))))))))) := by
    unfold postFrameNew
    apply consumes_bind consumes_getI32
    intro x1
    apply consumes_bind consumes_getU8
    intro x2
    apply consumes_bind consumes_getU8
    intro x3
    apply consumes_bind consumes_getU8
    intro x4
    apply consumes_bind consumes_getU16
    intro x5
    apply consumes_bind consumes_getF32
    intro x6
    apply consumes_bind consumes_getF32
    intro x7
    apply consumes_bind consumes_getF32
    intro x8
    apply consumes_bind consumes_getF32
    intro x9
    apply consumes_bind consumes_getF32
    intro x10
    apply consumes_bind consumes_getU8
    intro x11
    apply consumes_bind consumes_getU8
    intro x12
    apply consumes_bind consumes_getU8
    intro x13
    apply consumes_bind consumes_getU8
    intro x14
    apply consumes_bind (consumes_readIf _ consumes_getF32)
    intro x15
    apply consumes_bind (consumes_readIf _
      (consumes_bind consumes_getU8 (fun b0 =>
        consumes_bind consumes_getU8 (fun b1 =>
          consumes_bind consumes_getU8 (fun b2 =>
            consumes_bind consumes_getU8 (fun b3 =>
              consumes_bind consumes_getU8 (fun b4 => consumes_pure _)))))))
    intro x16
    apply consumes_bind (consumes_readIf _ consumes_getF32)
    intro x17
    apply consumes_bind (consumes_readIf _
      (consumes_bind consumes_getU8 (fun b => consumes_pure _)))
    intro x18
    apply consumes_bind (consumes_readIf _ consumes_getU16)
    intro x19
    apply consumes_bind (consumes_readIf _ consumes_getU8)
    intro x20
    apply consumes_bind (consumes_readIf _ consumes_getU8)
    intro x21
    apply consumes_bind (consumes_readIf _ consumes_getU8)
    intro x22
    apply consumes_bind (consumes_readIf _
      (consumes_bind consumes_getF32 (fun a =>
        consumes_bind consumes_getF32 (fun b => consumes_pure _))))
    intro x23
    apply consumes_bind (consumes_readIf _
      (consumes_bind consumes_getF32 (fun a =>
        consumes_bind consumes_getF32 (fun b => consumes_pure _))))
    intro x24
    apply consumes_bind (consumes_readIf _
      (consumes_bind consumes_getF32 (fun a => consumes_pure _)))
    intro x25
    apply consumes_bind (consumes_readIf _ consumes_getF32)
    intro x26
    apply consumes_bind (consumes_readIf _ consumes_getU32)
    intro x27
    apply consumes_bind (consumes_readIf _ consumes_getU16)
    intro x28
    apply consumes_bind (consumes_readIf _ consumes_getU16)
    intro x29
    apply consumes_bind (consumes_postFrameValidate _ _)
    intro x30
    exact consumes_pure _
  refine consumes_congr hbase ?_
  by_cases h1 : v.atLeast 0 2 0 = true
  · by_cases h2 : v.atLeast 2 0 0 = true
    · by_cases h3 : v.atLeast 3 1 0 = true
      · by_cases h4 : v.atLeast 3 5 0 = true
        · by_cases h5 : v.atLeast 3 8 0 = true
          · by_cases h6 : v.atLeast 3 11 0 = true
            · by_cases h7 : v.atLeast 3 16 0 = true
              · simp [postFrameExpected, h1, h2, h3, h4, h5, h6, h7]
              · rw [Bool.not_eq_true] at h7
                simp [postFrameExpected, h1, h2, h3, h4, h5, h6, h7]
            · rw [Bool.not_eq_true] at h6
              have h7 : v.atLeast 3 16 0 = false :=
                atLeast_false_mono v 3 16 0 3 11 0 (by decide) h6
              simp [postFrameExpected, h1, h2, h3, h4, h5, h6, h7]
          · rw [Bool.not_eq_true] at h5
            have h6 : v.atLeast 3 11 0 = false :=
              atLeast_false_mono v 3 11 0 3 8 0 (by decide) h5
            have h7 : v.atLeast 3 16 0 = false :=
              atLeast_false_mono v 3 16 0 3 8 0 (by decide) h5
            simp [postFrameExpected, h1, h2, h3, h4, h5, h6, h7]
        · rw [Bool.not_eq_true] at h4
          have h5 : v.atLeast 3 8 0 = false :=
            atLeast_false_mono v 3 8 0 3 5 0 (by decide) h4
          have h6 : v.atLeast 3 11 0 = false :=
            atLeast_false_mono v 3 11 0 3 5 0 (by decide) h4
          have h7 : v.atLeast 3 16 0 = false :=
            atLeast_false_mono v 3 16 0 3 5 0 (by decide) h4
          simp [postFrameExpected, h1, h2, h3, h4, h5, h6, h7]
      · rw [Bool.not_eq_true] at h3
        have h4 : v.atLeast 3 5 0 = false :=
          atLeast_false_mono v 3 5 0 3 1 0 (by decide) h3
        have h5 : v.atLeast 3 8 0 = false :=
          atLeast_false_mono v 3 8 0 3 1 0 (by decide) h3
        have h6 : v.atLeast 3 11 0 = false :=
          atLeast_false_mono v 3 11 0 3 1 0 (by decide) h3
        have h7 : v.atLeast 3 16 0 = false :=
          atLeast_false_mono v 3 16 0 3 1 0 (by decide) h3
        simp [postFrameExpected, h1, h2, h3, h4, h5, h6, h7]
    · rw [Bool.not_eq_true] at h2
      have h3 : v.atLeast 3 1 0 = false :=
        atLeast_false_mono v 3 1 0 2 0 0 (by decide) h2
      have h4 : v.atLeast 3 5 0 = false :=
        atLeast_false_mono v 3 5 0 2 0 0 (by decide) h2
      have h5 : v.atLeast 3 8 0 = false :=
        atLeast_false_mono v 3 8 0 2 0 0 (by decide) h2
      have h6 : v.atLeast 3 11 0 = false :=
        atLeast_false_mono v 3 11 0 2 0 0 (by decide) h2
      have h7 : v.atLeast 3 16 0 = false :=
        atLeast_false_mono v 3 16 0 2 0 0 (by decide) h2
      simp [postFrameExpected, h1, h2, h3, h4, h5, h6, h7]
  · rw [Bool.not_eq_true] at h1
    have h2 : v.atLeast 2 0 0 = false :=
      atLeast_false_mono v 2 0 0 0 2 0 (by decide) h1
    have h3 : v.atLeast 3 1 0 = false :=
      atLeast_false_mono v 3 1 0 0 2 0 (by decide) h1
    have h4 : v.atLeast 3 5 0 = false :=
      atLeast_false_mono v 3 5 0 0 2 0 (by decide) h1
    have h5 : v.atLeast 3 8 0 = false :=
      atLeast_false_mono v 3 8 0 0 2 0 (by decide) h1
    have h6 : v.atLeast 3 11 0 = false :=
      atLeast_false_mono v 3 11 0 0 2 0 (by decide) h1
    have h7 : v.atLeast 3 16 0 = false :=
      atLeast_false_mono v 3 16 0 0 2 0 (by decide) h1
    simp [postFrameExpected, h1, h2, h3, h4, h5, h6, h7]

theorem postFrameNew_fields (fr : Foreign) (v : Version) :
    RunOk (postFrameNew fr v) (fun r =>
      r.stateFrame.isSome = v.atLeast 0 2 0 ∧
      r.flags.isSome = v.atLeast 2 0 0 ∧
      r.miscAs.isSome = v.atLeast 2 0 0 ∧
      r.isGrounded.isSome = v.atLeast 2 0 0 ∧
      r.lastGroundId.isSome = v.atLeast 2 0 0 ∧
      r.jumpsRemaining.isSome = v.atLeast 2 0 0 ∧
      r.lCancel.isSome = v.atLeast 2 0 0 ∧
      r.hurtboxState.isSome = v.atLeast 3 1 0 ∧
      r.airVelocity.isSome = v.atLeast 3 5 0 ∧
      r.knockback.isSome = v.atLeast 3 5 0 ∧
      r.groundVelocity.isSome = v.atLeast 3 5 0 ∧
      r.hitlagRemaining.isSome = v.atLeast 3 8 0 ∧
      r.animationIndex.isSome = v.atLeast 3 11 0 ∧
      r.instanceHitBy.isSome = v.atLeast 3 16 0 ∧
      r.instanceId.isSome = v.atLeast 3 16 0) := by
  unfold postFrameNew
  apply runOk_bind
  intro x1
  apply runOk_bind
  intro x2
  apply runOk_bind
  intro x3
  apply runOk_bind
  intro x4
  apply runOk_bind
  intro x5
  apply runOk_bind
  intro x6
  apply runOk_bind
  intro x7
  apply runOk_bind
  intro x8
  apply runOk_bind
  intro x9
  apply runOk_bind
  intro x10
  apply runOk_bind
  intro x11
  apply runOk_bind
  intro x12
  apply runOk_bind
  intro x13
  apply runOk_bind
  intro x14
  apply runOk_bind_readIf
  intro o1 h1
  apply runOk_bind_readIf
  intro o2 h2
  apply runOk_bind_readIf
  intro o3 h3
  apply runOk_bind_readIf
  intro o4 h4
  apply runOk_bind_readIf
  intro o5 h5
  apply runOk_bind_readIf
  intro o6 h6
  apply runOk_bind_readIf
  intro o7 h7
  apply runOk_bind_readIf
  intro o8 h8
  apply runOk_bind_readIf
  intro o9 h9
  apply runOk_bind_readIf
  intro o10 h10
  apply runOk_bind_readIf
  intro o11 h11
  apply runOk_bind_readIf
  intro o12 h12
  apply runOk_bind_readIf
  intro o13 h13
  apply runOk_bind_readIf
  intro o14 h14
  apply runOk_bind_readIf
  intro o15 h15
  apply runOk_bind
  intro x30
  apply runOk_pure
  exact ⟨h1, h2, h3, h4, h5, h6, h7, h8, h9, h10, h11, h12, h13, h14, h15⟩

theorem consumesD_readActionState (fr : Foreign) (stateCode : Nat) (c : Character) :
    ConsumesD (readActionState fr stateCode c) 0 2 := by
  unfold readActionState
  cases hst : stateFromStateAndChar fr stateCode c with
  | known x =>
    exact consumesD_left 2 (consumes_pure _)
  | unknown x =>
    show ConsumesD (if c = Character.zelda then (do
        let stateCode2 ← getU16
        ReadM.pure (stateFromStateAndChar fr stateCode2 Character.sheik))
      else ReadM.pure (CharState.unknown x)) 0 2
    by_cases hz : c = Character.zelda
    · rw [if_pos hz]
      exact consumesD_right 0
        (consumes_bind consumes_getU16 (fun a => consumes_pure _))
    · rw [if_neg hz]
      exact consumesD_left 2 (consumes_pure _)

theorem preFrameNew_consumesD (fr : Foreign) (v : Version) (players : List Player) :
    ConsumesD (preFrameNew fr v players)
      (preFrameExpected v) (preFrameExpected v + 2) := by
  have hbase : ConsumesD (preFrameNew fr v players)
      (4 + (1 + (1 + (0 + (4 + (2 + (0 + (4 + (4 + (4 + (4 + (4 + (4 + (4 + (4 + (4 + (2 + (4 + (4 + ((if v.atLeast 1 2 0 then 1 else 0) + ((if v.atLeast 1 4 0 then 4 else 0) + ((if v.atLeast 3 15 0 then 1 else 0) + (0)))))))))))))))))))))))
      (4 + (1 + (1 + (0 + (4 + (2 + (2 + (4 + (4 + (4 + (4 + (4 + (4 + (4 + (4 + (4 + (2 + (4 + (4 + ((if v.atLeast 1 2 0 then 1 else 0) + ((if v.atLeast 1 4 0 then 4 else 0) + ((if v.atLeast 3 15 0 then 1 else 0) + (0))))))))))))))))))))))) := by
    unfold preFrameNew
    apply consumes_bindD consumes_getI32
    intro x1
    apply consumes_bindD consumes_getU8
    intro x2
    apply consumes_bindD consumes_getU8
    intro x3
    apply consumes_bindD (consumes_unwrapOpt _)
    intro player
    apply consumes_bindD consumes_getU32
    intro x4
    apply consumes_bindD consumes_getU16
    intro x5
    apply consumesD_bind (consumesD_readActionState fr x5 player.character)
    intro actionState
    apply consumes_bind consumes_getF32
    intro y1
    apply consumes_bind consumes_getF32
    intro y2
    apply consumes_bind consumes_getF32
    intro y3
    apply consumes_bind consumes_getF32
    intro y4
    apply consumes_bind consumes_getF32
    intro y5
    apply consumes_bind consumes_getF32
    intro y6
    apply consumes_bind consumes_getF32
    intro y7
    apply consumes_bind consumes_getF32
    intro y8
    apply consumes_bind consumes_getU32
    intro y9
    apply consumes_bind consumes_getU16
    intro y10
    apply consumes_bind consumes_getF32
    intro y11
    apply consumes_bind consumes_getF32
    intro y12
    apply consumes_bind (consumes_readIf _ consumes_getI8)
    intro o1
    apply consumes_bind (consumes_readIf _ consumes_getF32)
    intro o2
    apply consumes_bind (consumes_readIf _ consumes_getI8)
    intro o3
    exact consumes_pure _
  have harith : ∀ extra : Nat,
      (4 + (1 + (1 + (0 + (4 + (2 + (extra + (4 + (4 + (4 + (4 + (4 + (4 + (4 + (4 + (4 + (2 + (4 + (4 + ((if v.atLeast 1 2 0 then 1 else 0) + ((if v.atLeast 1 4 0 then 4 else 0) + ((if v.atLeast 3 15 0 then 1 else 0) + (0))))))))))))))))))))))) = preFrameExpected v + extra := by
    intro extra
    by_cases h1 : v.atLeast 1 2 0 = true
    · by_cases h2 : v.atLeast 1 4 0 = true
      · by_cases h3 : v.atLeast 3 15 0 = true
        · simp [preFrameExpected, h1, h2, h3]
          omega
        · rw [Bool.not_eq_true] at h3
          simp [preFrameExpected, h1, h2, h3]
          omega
      · rw [Bool.not_eq_true] at h2
        have h3 : v.atLeast 3 15 0 = false :=
          atLeast_false_mono v 3 15 0 1 4 0 (by decide) h2
        simp [preFrameExpected, h1, h2, h3]
        omega
    · rw [Bool.not_eq_true] at h1
      have h2 : v.atLeast 1 4 0 = false :=
        atLeast_false_mono v 1 4 0 1 2 0 (by decide) h1
      have h3 : v.atLeast 3 15 0 = false :=
        atLeast_false_mono v 3 15 0 1 2 0 (by decide) h1
      simp [preFrameExpected, h1, h2, h3]
      omega
  exact consumesD_congr hbase (harith 0) (harith 2)

theorem preFrameNew_fields (fr : Foreign) (v : Version) (players : List Player) :
    RunOk (preFrameNew fr v players) (fun r =>
      r.rawStickX.isSome = v.atLeast 1 2 0 ∧
      r.percent.isSome = v.atLeast 1 4 0 ∧
      r.rawStickY.isSome = v.atLeast 3 15 0) := by
  unfold preFrameNew
  apply runOk_bind
  intro x1
  apply runOk_bind
  intro x2
  apply runOk_bind
  intro x3
  apply runOk_bind
  intro player
  apply runOk_bind
  intro x4
  apply runOk_bind
  intro x5
  apply runOk_bind
  intro actionState
  apply runOk_bind
  intro y1
  apply runOk_bind
  intro y2
  apply runOk_bind
  intro y3
  apply runOk_bind
  intro y4
  apply runOk_bind
  intro y5
  apply runOk_bind
  intro y6
  apply runOk_bind
  intro y7
  apply runOk_bind
  intro y8
  apply runOk_bind
  intro y9
  apply runOk_bind
  intro y10
  apply runOk_bind
  intro y11
  apply runOk_bind
  intro y12
  apply runOk_bind_readIf
  intro o1 h1
  apply runOk_bind_readIf
  intro o2 h2
  apply runOk_bind_readIf
  intro o3 h3
  apply runOk_pure
  exact ⟨h1, h2, h3⟩

theorem consumes_readControllerFix : Consumes readControllerFix 4 := by
  have h : Consumes readControllerFix (4 + 0) := by
    unfold readControllerFix
    apply consumes_bind consumes_getU32
    intro raw
    exact consumes_unwrapOpt _
  simpa using h

theorem consumes_readUcf : Consumes readUcf 8 := by
  have h : Consumes readUcf (4 + (4 + 0)) := by
    unfold readUcf
    apply consumes_bind consumes_readControllerFix
    intro d
    apply consumes_bind consumes_readControllerFix
    intro sd
    exact consumes_pure _
  simpa using h

theorem consumes_readDisplayName (fr : Foreign) :
    Consumes (readDisplayName fr) 31 := by
  have h : Consumes (readDisplayName fr) (31 + 0) := by
    unfold readDisplayName
    apply consumes_bind (consumes_takeBytes 31)
    intro bytes
    exact consumes_pure _
  simpa using h

theorem consumes_readConnectCode (fr : Foreign) :
    Consumes (readConnectCode fr) 10 := by
  have h : Consumes (readConnectCode fr) (10 + 0) := by
    unfold readConnectCode
    apply consumes_bind (consumes_takeBytes 10)
    intro bytes
    exact consumes_pure _
  simpa using h

theorem consumes_readPlayerBlock (fr : Foreign) (i : Nat) :
    Consumes (readPlayerBlock fr i) 36 := by
  have h : Consumes (readPlayerBlock fr i)
      (1 + (1 + (1 + (1 + (1 + (1 + (1 + (1 + (1 + (2 + (2 + (4 + (4 + (4 +
        (11 + (0 + 0)))))))))))))))) := by
    unfold readPlayerBlock
    apply consumes_bind consumes_getU8
    intro z1
    apply consumes_bind consumes_getU8
    intro z2
    apply consumes_bind consumes_getU8
    intro z3
    apply consumes_bind consumes_getU8
    intro z4
    apply consumes_bind consumes_getU8
    intro z5
    apply consumes_bind consumes_getU8
    intro z6
    apply consumes_bind consumes_getU8
    intro z7
    apply consumes_bind consumes_getU8
    intro z8
    apply consumes_bind consumes_getU8
    intro z9
    apply consumes_bind consumes_getU16
    intro z10
    apply consumes_bind consumes_getU16
    intro z11
    apply consumes_bind consumes_getF32
    intro z12
    apply consumes_bind consumes_getF32
    intro z13
    apply consumes_bind consumes_getF32
    intro z14
    apply consumes_bind (consumes_advanceBy 11)
    intro z15
    apply consumes_bind (consumes_unwrapOpt _)
    intro port
    exact consumes_pure _
  simpa using h

theorem consumes_ite {c : Prop} [Decidable c] {m1 m2 : ReadM α} {n1 n2 : Nat}
    (h1 : Consumes m1 n1) (h2 : Consumes m2 n2) :
    Consumes (if c then m1 else m2) (if c then n1 else n2) := by
  by_cases hc : c
  · rw [if_pos hc, if_pos hc]
    exact h1
  · rw [if_neg hc, if_neg hc]
    exact h2

theorem gameStartBody_consumes (fr : Foreign) (version : Version) :
    Consumes (gameStartBody fr version) (gameStartBodyExpected version) := by
  have hbase : Consumes (gameStartBody fr version)
      (9 + (1 + (5 + (2 + (0 + (4 + (28 + (4 + (44 + (36 + (36 + (36 + (36 + (72 + (4 + (if version.atLeast 1 0 0 = false then 0 else (8 + (8 + (8 + (8 + (if version.atLeast 1 3 0 = false then 0 else (64 + (if version.atLeast 1 5 0 = false then 0 else (1 + (if version.atLeast 2 0 0 = false then 0 else (1 + (if version.atLeast 3 7 0 = false then 0 else (1 + (1 + (if version.atLeast 3 9 0 = false then 0 else (31 + (31 + (31 + (31 + (10 + (10 + (10 + (10 + (if version.atLeast 3 11 0 = false then 0 else (116 + (if version.atLeast 3 12 0 = false then 0 else (1 + (if version.atLeast 3 14 0 = false then 0 else (51 + (0 + (4 + (4 + 0))))))))))))))))))))))))))))))))))))))))))))))) := by
    unfold gameStartBody
    apply consumes_bind (consumes_advanceBy 9)
    intro z1
    apply consumes_bind consumes_getU8
    intro isTeams
    apply consumes_bind (consumes_advanceBy 5)
    intro z2
    apply consumes_bind consumes_getU16
    intro stageCode
    apply consumes_bind (consumes_unwrapOpt _)
    intro stage
    apply consumes_bind consumes_getU32
    intro timer
    apply consumes_bind (consumes_advanceBy 28)
    intro z3
    apply consumes_bind consumes_getF32
    intro dr
    apply consumes_bind (consumes_advanceBy 44)
    intro z4
    apply consumes_bind (consumes_readPlayerBlock fr 0)
    intro p0
    apply consumes_bind (consumes_readPlayerBlock fr 1)
    intro p1
    apply consumes_bind (consumes_readPlayerBlock fr 2)
    intro p2
    apply consumes_bind (consumes_readPlayerBlock fr 3)
    intro p3
    apply consumes_bind (consumes_advanceBy 72)
    intro z5
    apply consumes_bind consumes_getU32
    intro seed
    apply consumes_ite (consumes_pure _)
    apply consumes_bind consumes_readUcf
    intro u0
    apply consumes_bind consumes_readUcf
    intro u1
    apply consumes_bind consumes_readUcf
    intro u2
    apply consumes_bind consumes_readUcf
    intro u3
    apply consumes_ite (consumes_pure _)
    apply consumes_bind (consumes_advanceBy 64)
    intro z6
    apply consumes_ite (consumes_pure _)
    apply consumes_bind consumes_getU8
    intro palB
    apply consumes_ite (consumes_pure _)
    apply consumes_bind consumes_getU8
    intro frozenB
    apply consumes_ite (consumes_pure _)
    apply consumes_bind (consumes_advanceBy 1)
    intro z7
    apply consumes_bind consumes_getU8
    intro netB
    apply consumes_ite (consumes_pure _)
    apply consumes_bind (consumes_readDisplayName fr)
    intro d0
    apply consumes_bind (consumes_readDisplayName fr)
    intro d1
    apply consumes_bind (consumes_readDisplayName fr)
    intro d2
    apply consumes_bind (consumes_readDisplayName fr)
    intro d3
    apply consumes_bind (consumes_readConnectCode fr)
    intro c0
    apply consumes_bind (consumes_readConnectCode fr)
    intro c1
    apply consumes_bind (consumes_readConnectCode fr)
    intro c2
    apply consumes_bind (consumes_readConnectCode fr)
    intro c3
    apply consumes_ite (consumes_pure _)
    apply consumes_bind (consumes_advanceBy 116)
    intro z8
    apply consumes_ite (consumes_pure _)
    apply consumes_bind (consumes_advanceBy 1)
    intro z9
    apply consumes_ite (consumes_pure _)
    apply consumes_bind (consumes_takeBytes 51)
    intro matchIdRaw
    apply consumes_bind (consumes_unwrapOpt _)
    intro matchId
    apply consumes_bind consumes_getU32
    intro gameNumber
    apply consumes_bind consumes_getU32
    intro tiebreak
    exact consumes_pure _
  refine consumes_congr hbase ?_
  by_cases h1 : version.atLeast 1 0 0 = true
  · by_cases h2 : version.atLeast 1 3 0 = true
    · by_cases h3 : version.atLeast 1 5 0 = true
      · by_cases h4 : version.atLeast 2 0 0 = true
        · by_cases h5 : version.atLeast 3 7 0 = true
          · by_cases h6 : version.atLeast 3 9 0 = true
            · by_cases h7 : version.atLeast 3 11 0 = true
              · by_cases h8 : version.atLeast 3 12 0 = true
                · by_cases h9 : version.atLeast 3 14 0 = true
                  · simp [gameStartBodyExpected, h1, h2, h3, h4, h5, h6, h7, h8, h9]
                  · rw [Bool.not_eq_true] at h9
                    simp [gameStartBodyExpected, h1, h2, h3, h4, h5, h6, h7, h8, h9]
                · rw [Bool.not_eq_true] at h8
                  have h9 : version.atLeast 3 14 0 = false :=
                    atLeast_false_mono version 3 14 0 3 12 0 (by decide) h8
                  simp [gameStartBodyExpected, h1, h2, h3, h4, h5, h6, h7, h8, h9]
              · rw [Bool.not_eq_true] at h7
                have h8 : version.atLeast 3 12 0 = false :=
                  atLeast_false_mono version 3 12 0 3 11 0 (by decide) h7
                have h9 : version.atLeast 3 14 0 = false :=
                  atLeast_false_mono version 3 14 0 3 11 0 (by decide) h7
                simp [gameStartBodyExpected, h1, h2, h3, h4, h5, h6, h7, h8, h9]
            · rw [Bool.not_eq_true] at h6
              have h7 : version.atLeast 3 11 0 = false :=
                atLeast_false_mono version 3 11 0 3 9 0 (by decide) h6
              have h8 : version.atLeast 3 12 0 = false :=
                atLeast_false_mono version 3 12 0 3 9 0 (by decide) h6
              have h9 : version.atLeast 3 14 0 = false :=
                atLeast_false_mono version 3 14 0 3 9 0 (by decide) h6
              simp [gameStartBodyExpected, h1, h2, h3, h4, h5, h6, h7, h8, h9]
          · rw [Bool.not_eq_true] at h5
            have h6 : version.atLeast 3 9 0 = false :=
              atLeast_false_mono version 3 9 0 3 7 0 (by decide) h5
            have h7 : version.atLeast 3 11 0 = false :=
              atLeast_false_mono version 3 11 0 3 7 0 (by decide) h5
            have h8 : version.atLeast 3 12 0 = false :=
              atLeast_false_mono version 3 12 0 3 7 0 (by decide) h5
            have h9 : version.atLeast 3 14 0 = false :=
              atLeast_false_mono version 3 14 0 3 7 0 (by decide) h5
            simp [gameStartBodyExpected, h1, h2, h3, h4, h5, h6, h7, h8, h9]
        · rw [Bool.not_eq_true] at h4
          have h5 : version.atLeast 3 7 0 = false :=
            atLeast_false_mono version 3 7 0 2 0 0 (by decide) h4
          have h6 : version.atLeast 3 9 0 = false :=
            atLeast_false_mono version 3 9 0 2 0 0 (by decide) h4
          have h7 : version.atLeast 3 11 0 = false :=
            atLeast_false_mono version 3 11 0 2 0 0 (by decide) h4
          have h8 : version.atLeast 3 12 0 = false :=
            atLeast_false_mono version 3 12 0 2 0 0 (by decide) h4
          have h9 : version.atLeast 3 14 0 = false :=
            atLeast_false_mono version 3 14 0 2 0 0 (by decide) h4
          simp [gameStartBodyExpected, h1, h2, h3, h4, h5, h6, h7, h8, h9]
      · rw [Bool.not_eq_true] at h3
        have h4 : version.atLeast 2 0 0 = false :=
          atLeast_false_mono version 2 0 0 1 5 0 (by decide) h3
        have h5 : version.atLeast 3 7 0 = false :=
          atLeast_false_mono version 3 7 0 1 5 0 (by decide) h3
        have h6 : version.atLeast 3 9 0 = false :=
          atLeast_false_mono version 3 9 0 1 5 0 (by decide) h3
        have h7 : version.atLeast 3 11 0 = false :=
          atLeast_false_mono version 3 11 0 1 5 0 (by decide) h3
        have h8 : version.atLeast 3 12 0 = false :=
          atLeast_false_mono version 3 12 0 1 5 0 (by decide) h3
        have h9 : version.atLeast 3 14 0 = false :=
          atLeast_false_mono version 3 14 0 1 5 0 (by decide) h3
        simp [gameStartBodyExpected, h1, h2, h3, h4, h5, h6, h7, h8, h9]
    · rw [Bool.not_eq_true] at h2
      have h3 : version.atLeast 1 5 0 = false :=
        atLeast_false_mono version 1 5 0 1 3 0 (by decide) h2
      have h4 : version.atLeast 2 0 0 = false :=
        atLeast_false_mono version 2 0 0 1 3 0 (by decide) h2
      have h5 : version.atLeast 3 7 0 = false :=
        atLeast_false_mono version 3 7 0 1 3 0 (by decide) h2
      have h6 : version.atLeast 3 9 0 = false :=
        atLeast_false_mono version 3 9 0 1 3 0 (by decide) h2
      have h7 : version.atLeast 3 11 0 = false :=
        atLeast_false_mono version 3 11 0 1 3 0 (by decide) h2
      have h8 : version.atLeast 3 12 0 = false :=
        atLeast_false_mono version 3 12 0 1 3 0 (by decide) h2
      have h9 : version.atLeast 3 14 0 = false :=
        atLeast_false_mono version 3 14 0 1 3 0 (by decide) h2
      simp [gameStartBodyExpected, h1, h2, h3, h4, h5, h6, h7, h8, h9]
  · rw [Bool.not_eq_true] at h1
    have h2 : version.atLeast 1 3 0 = false :=
      atLeast_false_mono version 1 3 0 1 0 0 (by decide) h1
    have h3 : version.atLeast 1 5 0 = false :=
      atLeast_false_mono version 1 5 0 1 0 0 (by decide) h1
    have h4 : version.atLeast 2 0 0 = false :=
      atLeast_false_mono version 2 0 0 1 0 0 (by decide) h1
    have h5 : version.atLeast 3 7 0 = false :=
      atLeast_false_mono version 3 7 0 1 0 0 (by decide) h1
    have h6 : version.atLeast 3 9 0 = false :=
      atLeast_false_mono version 3 9 0 1 0 0 (by decide) h1
    have h7 : version.atLeast 3 11 0 = false :=
      atLeast_false_mono version 3 11 0 1 0 0 (by decide) h1
    have h8 : version.atLeast 3 12 0 = false :=
      atLeast_false_mono version 3 12 0 1 0 0 (by decide) h1
    have h9 : version.atLeast 3 14 0 = false :=
      atLeast_false_mono version 3 14 0 1 0 0 (by decide) h1
    simp [gameStartBodyExpected, h1, h2, h3, h4, h5, h6, h7, h8, h9]

theorem bool_ne_false {b : Bool} (h : ¬ b = false) : b = true := by
  cases b with
  | false => exact absurd rfl h
  | true => rfl

theorem runOk_readPlayerBlock (fr : Foreign) (i : Nat) :
    RunOk (readPlayerBlock fr i) (fun p =>
      p.ucf = Option.none ∧ p.displayName = Option.none ∧
      p.connectCode = Option.none) := by
  unfold readPlayerBlock
  apply runOk_bind
  intro z1
  apply runOk_bind
  intro z2
  apply runOk_bind
  intro z3
  apply runOk_bind
  intro z4
  apply runOk_bind
  intro z5
  apply runOk_bind
  intro z6
  apply runOk_bind
  intro z7
  apply runOk_bind
  intro z8
  apply runOk_bind
  intro z9
  apply runOk_bind
  intro z10
  apply runOk_bind
  intro z11
  apply runOk_bind
  intro z12
  apply runOk_bind
  intro z13
  apply runOk_bind
  intro z14
  apply runOk_bind
  intro z15
  apply runOk_bind
  intro port
  apply runOk_pure
  exact ⟨rfl, rfl, rfl⟩

theorem gameStartBody_fields (fr : Foreign) (version : Version) :
    RunOk (gameStartBody fr version) (fun out =>
      out.2.1 = version ∧
      out.2.2.length = 4 ∧
      out.1.pal.isSome = version.atLeast 1 5 0 ∧
      out.1.frozenStadium.isSome = version.atLeast 2 0 0 ∧
      out.1.netplay.isSome = version.atLeast 3 7 0 ∧
      out.1.gameNumber.isSome = version.atLeast 3 14 0 ∧
      out.1.tiebreakNumber.isSome = version.atLeast 3 14 0 ∧
      (∀ p ∈ out.2.2, p.ucf.isSome = version.atLeast 1 0 0 ∧
        p.displayName.isSome = version.atLeast 3 9 0 ∧
        p.connectCode.isSome = version.atLeast 3 9 0)) := by
  unfold gameStartBody
  refine runOk_bind ?_
  intro z1
  refine runOk_bind ?_
  intro isTeams
  refine runOk_bind ?_
  intro z2
  refine runOk_bind ?_
  intro stageCode
  refine runOk_bind ?_
  intro stage
  refine runOk_bind ?_
  intro timer
  refine runOk_bind ?_
  intro z3
  refine runOk_bind ?_
  intro dr
  refine runOk_bind ?_
  intro z4
  refine runOk_bind_strong (runOk_readPlayerBlock fr 0) ?_
  intro p0 hp0
  refine runOk_bind_strong (runOk_readPlayerBlock fr 1) ?_
  intro p1 hp1
  refine runOk_bind_strong (runOk_readPlayerBlock fr 2) ?_
  intro p2 hp2
  refine runOk_bind_strong (runOk_readPlayerBlock fr 3) ?_
  intro p3 hp3
  refine runOk_bind ?_
  intro z5
  refine runOk_bind ?_
  intro seed
  refine runOk_ite (version.atLeast 1 0 0 = false) ?_ ?_
  case refine_1 =>
      intro hg1
      refine runOk_pure ?_
      have hf3 : version.atLeast 1 5 0 = false :=
        atLeast_false_mono version 1 5 0 1 0 0 (by decide) hg1
      have hf4 : version.atLeast 2 0 0 = false :=
        atLeast_false_mono version 2 0 0 1 0 0 (by decide) hg1
      have hf5 : version.atLeast 3 7 0 = false :=
        atLeast_false_mono version 3 7 0 1 0 0 (by decide) hg1
      have hf6 : version.atLeast 3 9 0 = false :=
        atLeast_false_mono version 3 9 0 1 0 0 (by decide) hg1
      have hf9 : version.atLeast 3 14 0 = false :=
        atLeast_false_mono version 3 14 0 1 0 0 (by decide) hg1
      refine ⟨rfl, rfl, by simp [hf3], by simp [hf4], by simp [hf5], by simp [hf9], by simp [hf9], ?_⟩
      intro p hp
      simp only [List.mem_cons, List.not_mem_nil, or_false] at hp
      rcases hp with rfl | rfl | rfl | rfl <;>
        exact ⟨by simp [hp0.1, hp1.1, hp2.1, hp3.1, hg1], by simp [hp0.2.1, hp1.2.1, hp2.2.1, hp3.2.1, hf6], by simp [hp0.2.2, hp1.2.2, hp2.2.2, hp3.2.2, hf6]⟩
  case refine_2 =>
      intro hng1
      have ht1 : version.atLeast 1 0 0 = true := bool_ne_false hng1
      refine runOk_bind ?_
      intro u0
      refine runOk_bind ?_
      intro u1
      refine runOk_bind ?_
      intro u2
      refine runOk_bind ?_
      intro u3
      refine runOk_ite (version.atLeast 1 3 0 = false) ?_ ?_
      case refine_1 =>
          intro hg2
          refine runOk_pure ?_
          have hf3 : version.atLeast 1 5 0 = false :=
            atLeast_false_mono version 1 5 0 1 3 0 (by decide) hg2
          have hf4 : version.atLeast 2 0 0 = false :=
            atLeast_false_mono version 2 0 0 1 3 0 (by decide) hg2
          have hf5 : version.atLeast 3 7 0 = false :=
            atLeast_false_mono version 3 7 0 1 3 0 (by decide) hg2
          have hf6 : version.atLeast 3 9 0 = false :=
            atLeast_false_mono version 3 9 0 1 3 0 (by decide) hg2
          have hf9 : version.atLeast 3 14 0 = false :=
            atLeast_false_mono version 3 14 0 1 3 0 (by decide) hg2
          refine ⟨rfl, rfl, by simp [hf3], by simp [hf4], by simp [hf5], by simp [hf9], by simp [hf9], ?_⟩
          intro p hp
          simp only [List.mem_cons, List.not_mem_nil, or_false] at hp
          rcases hp with rfl | rfl | rfl | rfl <;>
            exact ⟨by simp [ht1], by simp [hp0.2.1, hp1.2.1, hp2.2.1, hp3.2.1, hf6], by simp [hp0.2.2, hp1.2.2, hp2.2.2, hp3.2.2, hf6]⟩
      case refine_2 =>
          intro hng2
          have ht2 : version.atLeast 1 3 0 = true := bool_ne_false hng2
          refine runOk_bind ?_
          intro z6
          refine runOk_ite (version.atLeast 1 5 0 = false) ?_ ?_
          case refine_1 =>
              intro hg3
              refine runOk_pure ?_
              have hf4 : version.atLeast 2 0 0 = false :=
                atLeast_false_mono version 2 0 0 1 5 0 (by decide) hg3
              have hf5 : version.atLeast 3 7 0 = false :=
                atLeast_false_mono version 3 7 0 1 5 0 (by decide) hg3
              have hf6 : version.atLeast 3 9 0 = false :=
                atLeast_false_mono version 3 9 0 1 5 0 (by decide) hg3
              have hf9 : version.atLeast 3 14 0 = false :=
                atLeast_false_mono version 3 14 0 1 5 0 (by decide) hg3
              refine ⟨rfl, rfl, by simp [hg3], by simp [hf4], by simp [hf5], by simp [hf9], by simp [hf9], ?_⟩
              intro p hp
              simp only [List.mem_cons, List.not_mem_nil, or_false] at hp
              rcases hp with rfl | rfl | rfl | rfl <;>
                exact ⟨by simp [ht1], by simp [hp0.2.1, hp1.2.1, hp2.2.1, hp3.2.1, hf6], by simp [hp0.2.2, hp1.2.2, hp2.2.2, hp3.2.2, hf6]⟩
          case refine_2 =>
              intro hng3
              have ht3 : version.atLeast 1 5 0 = true := bool_ne_false hng3
              refine runOk_bind ?_
              intro palB
              refine runOk_ite (version.atLeast 2 0 0 = false) ?_ ?_
              case refine_1 =>
                  intro hg4
                  refine runOk_pure ?_
                  have hf5 : version.atLeast 3 7 0 = false :=
                    atLeast_false_mono version 3 7 0 2 0 0 (by decide) hg4
                  have hf6 : version.atLeast 3 9 0 = false :=
                    atLeast_false_mono version 3 9 0 2 0 0 (by decide) hg4
                  have hf9 : version.atLeast 3 14 0 = false :=
                    atLeast_false_mono version 3 14 0 2 0 0 (by decide) hg4
                  refine ⟨rfl, rfl, by simp [ht3], by simp [hg4], by simp [hf5], by simp [hf9], by simp [hf9], ?_⟩
                  intro p hp
                  simp only [List.mem_cons, List.not_mem_nil, or_false] at hp
                  rcases hp with rfl | rfl | rfl | rfl <;>
                    exact ⟨by simp [ht1], by simp [hp0.2.1, hp1.2.1, hp2.2.1, hp3.2.1, hf6], by simp [hp0.2.2, hp1.2.2, hp2.2.2, hp3.2.2, hf6]⟩
              case refine_2 =>
                  intro hng4
                  have ht4 : version.atLeast 2 0 0 = true := bool_ne_false hng4
                  refine runOk_bind ?_
                  intro frozenB
                  refine runOk_ite (version.atLeast 3 7 0 = false) ?_ ?_
                  case refine_1 =>
                      intro hg5
                      refine runOk_pure ?_
                      have hf6 : version.atLeast 3 9 0 = false :=
                        atLeast_false_mono version 3 9 0 3 7 0 (by decide) hg5
                      have hf9 : version.atLeast 3 14 0 = false :=
                        atLeast_false_mono version 3 14 0 3 7 0 (by decide) hg5
                      refine ⟨rfl, rfl, by simp [ht3], by simp [ht4], by simp [hg5], by simp [hf9], by simp [hf9], ?_⟩
                      intro p hp
                      simp only [List.mem_cons, List.not_mem_nil, or_false] at hp
                      rcases hp with rfl | rfl | rfl | rfl <;>
                        exact ⟨by simp [ht1], by simp [hp0.2.1, hp1.2.1, hp2.2.1, hp3.2.1, hf6], by simp [hp0.2.2, hp1.2.2, hp2.2.2, hp3.2.2, hf6]⟩
                  case refine_2 =>
                      intro hng5
                      have ht5 : version.atLeast 3 7 0 = true := bool_ne_false hng5
                      refine runOk_bind ?_
                      intro z7
                      refine runOk_bind ?_
                      intro netB
                      refine runOk_ite (version.atLeast 3 9 0 = false) ?_ ?_
                      case refine_1 =>
                          intro hg6
                          refine runOk_pure ?_
                          have hf9 : version.atLeast 3 14 0 = false :=
                            atLeast_false_mono version 3 14 0 3 9 0 (by decide) hg6
                          refine ⟨rfl, rfl, by simp [ht3], by simp [ht4], by simp [ht5], by simp [hf9], by simp [hf9], ?_⟩
                          intro p hp
                          simp only [List.mem_cons, List.not_mem_nil, or_false] at hp
                          rcases hp with rfl | rfl | rfl | rfl <;>
                            exact ⟨by simp [ht1], by simp [hp0.2.1, hp1.2.1, hp2.2.1, hp3.2.1, hg6], by simp [hp0.2.2, hp1.2.2, hp2.2.2, hp3.2.2, hg6]⟩
                      case refine_2 =>
                          intro hng6
                          have ht6 : version.atLeast 3 9 0 = true := bool_ne_false hng6
                          refine runOk_bind ?_
                          intro d0
                          refine runOk_bind ?_
                          intro d1
                          refine runOk_bind ?_
                          intro d2
                          refine runOk_bind ?_
                          intro d3
                          refine runOk_bind ?_
                          intro c0
                          refine runOk_bind ?_
                          intro c1
                          refine runOk_bind ?_
                          intro c2
                          refine runOk_bind ?_
                          intro c3
                          refine runOk_ite (version.atLeast 3 11 0 = false) ?_ ?_
                          case refine_1 =>
                              intro hg7
                              refine runOk_pure ?_
                              have hf9 : version.atLeast 3 14 0 = false :=
                                atLeast_false_mono version 3 14 0 3 11 0 (by decide) hg7
                              refine ⟨rfl, rfl, by simp [ht3], by simp [ht4], by simp [ht5], by simp [hf9], by simp [hf9], ?_⟩
                              intro p hp
                              simp only [List.mem_cons, List.not_mem_nil, or_false] at hp
                              rcases hp with rfl | rfl | rfl | rfl <;>
                                exact ⟨by simp [ht1], by simp [ht6], by simp [ht6]⟩
                          case refine_2 =>
                              intro hng7
                              have ht7 : version.atLeast 3 11 0 = true := bool_ne_false hng7
                              refine runOk_bind ?_
                              intro z8
                              refine runOk_ite (version.atLeast 3 12 0 = false) ?_ ?_
                              case refine_1 =>
                                  intro hg8
                                  refine runOk_pure ?_
                                  have hf9 : version.atLeast 3 14 0 = false :=
                                    atLeast_false_mono version 3 14 0 3 12 0 (by decide) hg8
                                  refine ⟨rfl, rfl, by simp [ht3], by simp [ht4], by simp [ht5], by simp [hf9], by simp [hf9], ?_⟩
                                  intro p hp
                                  simp only [List.mem_cons, List.not_mem_nil, or_false] at hp
                                  rcases hp with rfl | rfl | rfl | rfl <;>
                                    exact ⟨by simp [ht1], by simp [ht6], by simp [ht6]⟩
                              case refine_2 =>
                                  intro hng8
                                  have ht8 : version.atLeast 3 12 0 = true := bool_ne_false hng8
                                  refine runOk_bind ?_
                                  intro z9
                                  refine runOk_ite (version.atLeast 3 14 0 = false) ?_ ?_
                                  case refine_1 =>
                                      intro hg9
                                      refine runOk_pure ?_
                                      refine ⟨rfl, rfl, by simp [ht3], by simp [ht4], by simp [ht5], by simp [hg9], by simp [hg9], ?_⟩
                                      intro p hp
                                      simp only [List.mem_cons, List.not_mem_nil, or_false] at hp
                                      rcases hp with rfl | rfl | rfl | rfl <;>
                                        exact ⟨by simp [ht1], by simp [ht6], by simp [ht6]⟩
                                  case refine_2 =>
                                      intro hng9
                                      have ht9 : version.atLeast 3 14 0 = true := bool_ne_false hng9
                                      refine runOk_bind ?_
                                      intro matchIdRaw
                                      refine runOk_bind ?_
                                      intro matchId
                                      refine runOk_bind ?_
                                      intro gameNumber
                                      refine runOk_bind ?_
                                      intro tiebreakNumber
                                      refine runOk_pure ?_
                                      refine ⟨rfl, rfl, by simp [ht3], by simp [ht4], by simp [ht5], by simp [ht9], by simp [ht9], ?_⟩
                                      intro p hp
                                      simp only [List.mem_cons, List.not_mem_nil, or_false] at hp
                                      rcases hp with rfl | rfl | rfl | rfl <;>
                                        exact ⟨by simp [ht1], by simp [ht6], by simp [ht6]⟩

set_option maxRecDepth 8000 in
/-- C4 counterexample: two pre-record windows of equal length, decoded
under the same version and roster, consume different byte counts — the
window whose action-state code is unresolved for Zelda triggers the
two-byte re-read.  Consumption is therefore not independent of the
field values in the window. -/
theorem claim_C4_counterexample :
    restLen (preFrameNew frStateZero ⟨0, 1, 0⟩ c4Players c4W1) = 6 ∧
    restLen (preFrameNew frStateZero ⟨0, 1, 0⟩ c4Players c4W2) = 4 ∧
    c4W1.length = c4W2.length := by
  refine ⟨rfl, rfl, rfl⟩

/-- C4 (amended): whenever decoding completes successfully, each
version-gated decoder consumes exactly the byte count implied by the
longest prefix of gates satisfied by the version, and every optional
field is present exactly when its gate is satisfied — except that the
pre-record decoder consumes two extra bytes when the roster character
at the decoded port is Zelda and the first action-state lookup is
unresolved, so pre-record consumption is the implied count or that
count plus two, depending on window field values. -/
theorem claim_C4 :
    (∀ (v : Version) (s : List Nat) (r : FrameStart) (s' : List Nat),
      frameStartNew v s = .ok (r, s') →
      s.length = frameStartExpected v + s'.length ∧
      r.frameCounter.isSome = v.atLeast 3 10 0) ∧
    (∀ (v : Version) (s : List Nat) (r : FrameEnd) (s' : List Nat),
      frameEndNew v s = .ok (r, s') →
      s.length = frameEndExpected v + s'.length ∧
      r.latestFinalized.isSome = v.atLeast 3 7 0) ∧
    (∀ (v : Version) (s : List Nat) (r : ItemFrame) (s' : List Nat),
      itemFrameNew v s = .ok (r, s') →
      s.length = itemFrameExpected v + s'.length ∧
      r.missileType.isSome = v.atLeast 3 2 0 ∧
      r.turnipType.isSome = v.atLeast 3 2 0 ∧
      r.launched.isSome = v.atLeast 3 2 0 ∧
      r.chargePower.isSome = v.atLeast 3 2 0 ∧
      r.owner.isSome = v.atLeast 3 6 0 ∧
      r.instanceId.isSome = v.atLeast 3 16 0) ∧
    (∀ (fr : Foreign) (v : Version) (s : List Nat) (r : PostFrame)
      (s' : List Nat),
      postFrameNew fr v s = .ok (r, s') →
      s.length = postFrameExpected v + s'.length ∧
      r.stateFrame.isSome = v.atLeast 0 2 0 ∧
      r.flags.isSome = v.atLeast 2 0 0 ∧
      r.miscAs.isSome = v.atLeast 2 0 0 ∧
      r.isGrounded.isSome = v.atLeast 2 0 0 ∧
      r.lastGroundId.isSome = v.atLeast 2 0 0 ∧
      r.jumpsRemaining.isSome = v.atLeast 2 0 0 ∧
      r.lCancel.isSome = v.atLeast 2 0 0 ∧
      r.hurtboxState.isSome = v.atLeast 3 1 0 ∧
      r.airVelocity.isSome = v.atLeast 3 5 0 ∧
      r.knockback.isSome = v.atLeast 3 5 0 ∧
      r.groundVelocity.isSome = v.atLeast 3 5 0 ∧
      r.hitlagRemaining.isSome = v.atLeast 3 8 0 ∧
      r.animationIndex.isSome = v.atLeast 3 11 0 ∧
      r.instanceHitBy.isSome = v.atLeast 3 16 0 ∧
      r.instanceId.isSome = v.atLeast 3 16 0) ∧
    (∀ (fr : Foreign) (v : Version) (players : List Player) (s : List Nat)
      (r : PreFrame) (s' : List Nat),
      preFrameNew fr v players s = .ok (r, s') →
      (s.length = preFrameExpected v + s'.length ∨
       s.length = (preFrameExpected v + 2) + s'.length) ∧
      r.rawStickX.isSome = v.atLeast 1 2 0 ∧
      r.percent.isSome = v.atLeast 1 4 0 ∧
      r.rawStickY.isSome = v.atLeast 3 15 0) ∧
    (∀ (fr : Foreign) (s : List Nat) (out : GameStart × Version × List Player)
      (s' : List Nat),
      gameStartParse fr s = .ok (out, s') →
      s.length = gameStartExpected out.2.1 + s'.length ∧
      out.1.pal.isSome = out.2.1.atLeast 1 5 0 ∧
      out.1.frozenStadium.isSome = out.2.1.atLeast 2 0 0 ∧
      out.1.netplay.isSome = out.2.1.atLeast 3 7 0 ∧
      out.1.gameNumber.isSome = out.2.1.atLeast 3 14 0 ∧
      out.1.tiebreakNumber.isSome = out.2.1.atLeast 3 14 0 ∧
      (∀ p ∈ out.2.2, p.ucf.isSome = out.2.1.atLeast 1 0 0 ∧
        p.displayName.isSome = out.2.1.atLeast 3 9 0 ∧
        p.connectCode.isSome = out.2.1.atLeast 3 9 0)) := by
  refine ⟨?_, ?_, ?_, ?_, ?_, ?_⟩
  · intro v s r s' h
    exact ⟨frameStartNew_consumes v s r s' h, frameStartNew_fields v s r s' h⟩
  · intro v s r s' h
    exact ⟨frameEndNew_consumes v s r s' h, frameEndNew_fields v s r s' h⟩
  · intro v s r s' h
    exact ⟨itemFrameNew_consumes v s r s' h, itemFrameNew_fields v s r s' h⟩
  · intro fr v s r s' h
    exact ⟨postFrameNew_consumes fr v s r s' h, postFrameNew_fields fr v s r s' h⟩
  · intro fr v players s r s' h
    exact ⟨preFrameNew_consumesD fr v players s r s' h,
      preFrameNew_fields fr v players s r s' h⟩
  · intro fr s out s' h
    unfold gameStartParse at h
    rw [bind_ok] at h
    obtain ⟨a, s1, ha, h⟩ := h
    rw [bind_ok] at h
    obtain ⟨b, s2, hb, h⟩ := h
    rw [bind_ok] at h
    obtain ⟨c, s3, hc, h⟩ := h
    have hf := gameStartBody_fields fr ⟨a, b, c⟩ s3 out s' h
    have hcons := gameStartBody_consumes fr ⟨a, b, c⟩ s3 out s' h
    rw [getU8_ok] at ha hb hc
    subst ha
    subst hb
    subst hc
    have hv : out.2.1 = (⟨a, b, c⟩ : Version) := hf.1
    constructor
    · rw [hv]
      unfold gameStartExpected
      simp only [List.length_cons]
      omega
    · rw [hv]
      exact ⟨hf.2.2.1, hf.2.2.2.1, hf.2.2.2.2.1, hf.2.2.2.2.2.1,
        hf.2.2.2.2.2.2.1, hf.2.2.2.2.2.2.2⟩

set_option maxRecDepth 8000 in
/-- C4 witness: concrete successful runs of each decoder at a
gate-free version, with the consumption equation instantiated. -/
theorem claim_C4_witness :
    (frameStartNew ⟨0, 1, 0⟩ fsW = .ok fsRes ∧
      fsW.length = frameStartExpected ⟨0, 1, 0⟩ + fsRes.2.length) ∧
    (frameEndNew ⟨0, 1, 0⟩ feW = .ok feRes ∧
      feW.length = frameEndExpected ⟨0, 1, 0⟩ + feRes.2.length) ∧
    (itemFrameNew ⟨0, 1, 0⟩ itW = .ok itRes ∧
      itW.length = itemFrameExpected ⟨0, 1, 0⟩ + itRes.2.length) ∧
    (postFrameNew frAllOk ⟨0, 1, 0⟩ postW = .ok postRes ∧
      postW.length = postFrameExpected ⟨0, 1, 0⟩ + postRes.2.length) ∧
    (preFrameNew frAllOk ⟨0, 1, 0⟩ c4Players preW = .ok preRes ∧
      (preW.length = preFrameExpected ⟨0, 1, 0⟩ + preRes.2.length ∨
       preW.length = (preFrameExpected ⟨0, 1, 0⟩ + 2) + preRes.2.length)) ∧
    (gameStartParse frAllOk gsW = .ok gsRes ∧
      gsW.length = gameStartExpected gsRes.1.2.1 + gsRes.2.length) := by
  refine ⟨⟨rfl, ?_⟩, ⟨rfl, ?_⟩, ⟨rfl, ?_⟩, ⟨rfl, ?_⟩, ⟨rfl, ?_⟩, ⟨rfl, ?_⟩⟩
  · exact (claim_C4.1 ⟨0, 1, 0⟩ fsW fsRes.1 fsRes.2 (by rfl)).1
  · exact (claim_C4.2.1 ⟨0, 1, 0⟩ feW feRes.1 feRes.2 (by rfl)).1
  · exact (claim_C4.2.2.1 ⟨0, 1, 0⟩ itW itRes.1 itRes.2 (by rfl)).1
  · exact (claim_C4.2.2.2.1 frAllOk ⟨0, 1, 0⟩ postW postRes.1 postRes.2 (by rfl)).1
  · exact (claim_C4.2.2.2.2.1 frAllOk ⟨0, 1, 0⟩ c4Players preW preRes.1
      preRes.2 (by rfl)).1
  · exact (claim_C4.2.2.2.2.2 frAllOk gsW gsRes.1 gsRes.2 (by rfl)).1

theorem bind_crash_of_ok {m : ReadM α} {f : α → ReadM β} {s s' : List Nat}
    {a : α} (h1 : m s = .ok (a, s')) (h2 : f a s' = .crash) :
    (m >>= f) s = .crash := by
  rw [bind_crash]
  exact Or.inr ⟨a, s', h1, h2⟩

theorem bind_crash_of_crash {m : ReadM α} {f : α → ReadM β} {s : List Nat}
    (h : m s = .crash) : (m >>= f) s = .crash := by
  rw [bind_crash]
  exact Or.inl h

/-- C3: refuted as stated — for the roster with a human Ice Climbers
participant on port 1, the constructed expected cycle carries the
companion pre-record slot with is-companion-slot true, but the companion
post-record slot (index 6) with is-companion-slot FALSE, contradicting
the claimed per-participant post pattern. -/
theorem claim_C3 :
    eventOrder c3Players =
      [{ port := Port.P1, nana := false, kind := EventType.frameStart },
       { port := Port.P1, nana := false, kind := EventType.preFrame },
       { port := Port.P1, nana := true, kind := EventType.preFrame },
       { port := Port.P2, nana := false, kind := EventType.preFrame },
       { port := Port.P1, nana := false, kind := EventType.item },
       { port := Port.P1, nana := false, kind := EventType.postFrame },
       { port := Port.P1, nana := false, kind := EventType.postFrame },
       { port := Port.P2, nana := false, kind := EventType.postFrame },
       { port := Port.P1, nana := false, kind := EventType.frameEnd }] ∧
    (eventOrder c3Players).get? 6 ≠
      some { port := Port.P1, nana := true, kind := EventType.postFrame } := by
  exact ⟨rfl, by decide⟩

/-- C10: the pre-record decoder has the unstated port-byte precondition —
for any window whose fifth byte (the port) is 4 or more, decoding a
4-slot roster panics (no defined result, no fallback), and the driver
port conversion Port::from_repr is defined exactly for 0..=3. -/
theorem claim_C10 :
    (∀ (fr : Foreign) (v : Version) (players : List Player)
      (b0 b1 b2 b3 p : Nat) (rest : List Nat),
      players.length = 4 → 4 ≤ p →
      preFrameNew fr v players (b0 :: b1 :: b2 :: b3 :: p :: rest) =
        .crash) ∧
    (∀ n : Nat, (Port.fromRepr n).isSome = true ↔ n ≤ 3) := by
  constructor
  · intro fr v players b0 b1 b2 b3 p rest hlen hp
    have hget : players.get? p = Option.none := by
      rw [List.get?_eq_none]
      omega
    unfold preFrameNew
    refine bind_crash_of_ok rfl ?_
    refine bind_crash_of_ok rfl ?_
    cases rest with
    | nil => exact bind_crash_of_crash rfl
    | cons f r =>
      refine bind_crash_of_ok rfl ?_
      refine bind_crash_of_crash ?_
      show unwrapOpt (players.get? p) r = Res.crash
      rw [hget]
      rfl
  · intro n
    by_cases h : n ≤ 3
    · interval_cases n <;> simp [Port.fromRepr]
    · unfold Port.fromRepr
      rw [if_neg (by omega), if_neg (by omega), if_neg (by omega),
        if_neg (by omega)]
      simp
      omega

/-- C10 witness: a concrete window with port byte 9 panics the
pre-record decoder on a 4-slot roster. -/
theorem claim_C10_witness :
    preFrameNew frAllOk ⟨0, 1, 0⟩ c4Players (0 :: 0 :: 0 :: 0 :: 9 :: []) =
      .crash ∧
    ((Port.fromRepr 9).isSome = true ↔ 9 ≤ 3) :=
  ⟨claim_C10.1 frAllOk ⟨0, 1, 0⟩ c4Players 0 0 0 0 9 [] (by rfl) (by omega),
   claim_C10.2 9⟩

set_option maxRecDepth 8000 in
/-- C6: refuted — an unrecognized stage code, an invalid controller-fix
code and an unrecognized internal character code each panic the decoder
(Option::unwrap) instead of mapping to a fallback variant; only the CSS
character lookup and the action-state lookup fall back as claimed. -/
theorem claim_C6 :
    gameStartParse frStageBad gsW = .crash ∧
    gameStartParse frAllOk c6W = .crash ∧
    postFrameNew frCharBad ⟨0, 1, 0⟩ postW = .crash ∧
    (gameStartParse frCssNone gsW).isOk = true ∧
    (preFrameNew frStateZero ⟨0, 1, 0⟩ c6Players c4W2).isOk = true := by
  refine ⟨rfl, rfl, rfl, rfl, rfl⟩

theorem orderTail_preserves (st : LState) (i : Nat) (b : Bool)
    (hlen : st.players.length = 4) :
    (orderTail st i b).needSync = st.needSync ∧
    (orderTail st i b).errors = st.errors := by
  unfold orderTail
  rw [if_neg]
  · exact ⟨rfl, rfl⟩
  · rintro ⟨-, -, h2⟩
    omega

set_option maxRecDepth 4000 in
/-- C2: refuted — an unrecognized event code is keyed in the size table
as the fallback None kind, so the size lookup panics when no raw 0x00
entry exists; when a 0x00 entry exists the stream advances by that
entry's length, not by the unrecognized code's own declared length; and
the size-table decoder itself panics on a table declaring an
unrecognized code, so such a code can never carry a declared length. -/
theorem claim_C2 :
    loopStep frAllOk c2StA = .crashed ∧
    (loopStep frAllOk c2StB = .next c2NextB ∧
      c2NextB.stream.length = 1 ∧ c2NextB.warns = c2StB.warns + 1) ∧
    getEventSizes [0x35, 4, 0x34, 0, 5] = .crash := by
  refine ⟨rfl, ⟨rfl, rfl, rfl⟩, rfl⟩

set_option maxRecDepth 8000 in
/-- C1: refuted — the match-start decoder always returns a 4-slot
roster, and the two-participant condition compares that fixed slot
count (never the number of active participants) with 2, so the
pre-record and post-record branches can never set the resynchronization
flag or count an ordering error; in particular the concrete mis-ordered
pre-record in a one-on-one session steps silently. -/
theorem claim_C1 :
    (∀ (fr : Foreign) (s : List Nat)
      (out : GameStart × Version × List Player) (rest : List Nat),
      gameStartParse fr s = .ok (out, rest) → out.2.2.length = 4) ∧
    (∀ (fr : Foreign) (st : LState) (w : List Nat) (r : LState),
      st.players.length = 4 → stepPreFrame fr st w = .ok r →
      r.needSync = st.needSync ∧ r.errors = st.errors) ∧
    (∀ (fr : Foreign) (st : LState) (w : List Nat) (r : LState),
      st.players.length = 4 → stepPostFrame fr st w = .ok r →
      r.needSync = st.needSync ∧ r.errors = st.errors) ∧
    (loopStep frAllOk c1St = .next c1Next ∧
      c1Next.errors = 0 ∧ c1Next.needSync = false ∧ c1Next.orderIdx = 2 ∧
      (eventOrder c1Players).get? 1 =
        some { port := Port.P1, nana := false, kind := EventType.preFrame }) := by
  refine ⟨?_, ?_, ?_, rfl, rfl, rfl, rfl, rfl⟩
  · intro fr s out rest h
    unfold gameStartParse at h
    obtain ⟨a1, s1, h1, h⟩ := bind_ok.mp h
    obtain ⟨a2, s2, h2, h⟩ := bind_ok.mp h
    obtain ⟨a3, s3, h3, h⟩ := bind_ok.mp h
    exact ((gameStartBody_fields fr ⟨a1, a2, a3⟩) s3 out rest h).2.1
  · intro fr st w r hlen h
    unfold stepPreFrame at h
    split at h
    · split at h
      · exact absurd h (by simp)
      · split at h
        · exact absurd h (by simp)
        · simp only [] at h
          split at h
          · split at h
            · exact absurd h (by simp)
            · split at h
              · injection h with h'
                subst h'
                exact orderTail_preserves st _ _ hlen
              · injection h with h'
                subst h'
                exact orderTail_preserves st _ _ hlen
          · injection h with h'
            subst h'
            exact orderTail_preserves st _ _ hlen
    · exact absurd h (by simp)
    · exact absurd h (by simp)
  · intro fr st w r hlen h
    unfold stepPostFrame at h
    split at h
    · split at h
      · exact absurd h (by simp)
      · split at h
        · exact absurd h (by simp)
        · simp only [] at h
          split at h
          · split at h
            · exact absurd h (by simp)
            · split at h
              · injection h with h'
                subst h'
                exact orderTail_preserves st _ _ hlen
              · injection h with h'
                subst h'
                exact orderTail_preserves st _ _ hlen
          · injection h with h'
            subst h'
            exact orderTail_preserves st _ _ hlen
    · exact absurd h (by simp)
    · exact absurd h (by simp)

set_option maxRecDepth 8000 in
/-- C1 witness: the universal parts applied at a concrete match-start
window and at concrete mis-ordered pre- and post-record steps. -/
theorem claim_C1_witness :
    gsRes.1.2.2.length = 4 ∧
    (c1Pre.needSync = c1St.needSync ∧ c1Pre.errors = c1St.errors) ∧
    (c1Post.needSync = c1St.needSync ∧ c1Post.errors = c1St.errors) :=
  ⟨claim_C1.1 frAllOk gsW gsRes.1 gsRes.2 (by rfl),
   claim_C1.2.1 frAllOk c1St c1Window c1Pre (by rfl) (by rfl),
   claim_C1.2.2.1 frAllOk c1St postW c1Post (by rfl) (by rfl)⟩

theorem loopStep_next_lt {fr : Foreign} {st s' : LState}
    (h : loopStep fr st = .next s') :
    s'.stream.length < st.stream.length ∧ loopGuard st := by
  unfold loopStep at h
  split at h
  · rename_i hg
    split at h
    · exact absurd h (by simp)
    · rename_i code s1 heq
      simp only [] at h
      split at h
      · exact absurd h (by simp)
      · split at h
        · split at h
          · rename_i st2 harm
            injection h with h'
            subst h'
            refine ⟨?_, hg⟩
            show (s1.drop _).length < st.stream.length
            rw [heq]
            simp only [List.length_drop, List.length_cons]
            omega
          · exact absurd h (by simp)
        · exact absurd h (by simp)
  · exact absurd h (by simp)

/-- C9: the parse loop terminates in a single pass — every continuing
iteration strictly shrinks the stream (it consumes at least the event
code byte) and can only continue while the guard holds; when the guard
fails (declared raw length reached, previous event was the match end,
or the stream is exhausted) the loop stops at once; and the fueled loop
is independent of the fuel bound once the bound reaches the stream
length, so stream-length fuel always completes the run. -/
theorem claim_C9 :
    (∀ (fr : Foreign) (st s' : LState),
      loopStep fr st = .next s' →
      s'.stream.length < st.stream.length ∧ loopGuard st) ∧
    (∀ (fr : Foreign) (st : LState), ¬ loopGuard st →
      loopStep fr st = .stop st) ∧
    (∀ (fr : Foreign) (n m : Nat) (st : LState),
      st.stream.length ≤ n → st.stream.length ≤ m →
      runLoop fr n st = runLoop fr m st) := by
  refine ⟨fun fr st s' h => loopStep_next_lt h, ?_, ?_⟩
  · intro fr st hg
    unfold loopStep
    rw [if_neg hg]
  · intro fr n
    induction n with
    | zero =>
      intro m st hn hm
      have hnil : st.stream = [] := List.eq_nil_of_length_eq_zero (by omega)
      have hng : ¬ loopGuard st := fun hg => hg.2.2 hnil
      have hs : loopStep fr st = .stop st := by
        unfold loopStep
        rw [if_neg hng]
      cases m with
      | zero => rfl
      | succ j => simp only [runLoop, hs]
    | succ k ih =>
      intro m st hn hm
      cases hs : loopStep fr st with
      | stop s2 =>
        cases m with
        | zero => simp only [runLoop, hs]
        | succ j => simp only [runLoop, hs]
      | crashed =>
        cases m with
        | zero => simp only [runLoop, hs]
        | succ j => simp only [runLoop, hs]
      | next s2 =>
        obtain ⟨hlt, hguard⟩ := loopStep_next_lt hs
        have hpos : 0 < st.stream.length := List.length_pos.2 hguard.2.2
        cases m with
        | zero => omega
        | succ j =>
          simp only [runLoop, hs]
          exact ih j s2 (by omega) (by omega)

/-- C9 witness: the three parts applied at concrete session states — a
continuing step on a zero-payload event, a stopped step on an exhausted
stream, and fuel-independence of the concrete run. -/
theorem claim_C9_witness :
    (c9Next.stream.length < c9St.stream.length ∧ loopGuard c9St) ∧
    loopStep frAllOk c9Stop = .stop c9Stop ∧
    runLoop frAllOk 1 c9St = runLoop frAllOk 5 c9St :=
  ⟨claim_C9.1 frAllOk c9St c9Next (by rfl),
   claim_C9.2.1 frAllOk c9Stop (by decide),
   claim_C9.2.2 frAllOk 1 5 c9St (by decide) (by decide)⟩

/-- C5: refuted — a buffer shorter than the 11-byte envelope signature
panics (the range-get unwrap in expect_bytes) instead of yielding a
recoverable error outcome. -/
theorem claim_C5 (fr : Foreign) (fileData : List Nat)
    (h : fileData.length < 11) : validateGame fr fileData = .crash := by
  unfold validateGame
  have h11 : slippiHeader.length = 11 := rfl
  have hx : expectBytes slippiHeader .headerMismatch fileData = .crash := by
    unfold expectBytes
    rw [if_neg (by rw [h11]; omega)]
  rw [hx]

/-- C5 witness: the empty buffer panics the validator. -/
theorem claim_C5_witness : validateGame frAllOk [] = .crash :=
  claim_C5 frAllOk [] (by decide)

end SlpValidate

